import Mathlib

/-!
Verification development for the tripmind trip-planning backend.

The Python sources under `backend/` are shallowly embedded: pure functions
become Lean functions, Python `float` arithmetic is modelled exactly over `ℚ`,
Python exceptions become `Except`/`Option` results, and Python truthiness is
made explicit at every use site.  Definitions are transcribed from the source
files named in their doc comments.
-/

namespace TripMind

/-- Python exception classes that escape the handlers actually written in the
source (the clauses `except (json.JSONDecodeError, KeyError, ValueError)` and
`except (KeyError, ValueError, TypeError)` never catch these two). -/
inductive PyErr where
  | attributeError
  | typeError
  deriving DecidableEq, Repr

/-! ## String utilities

Python string operations are modelled on the character list of a `String`.
`str.find` / `in` / `.lower()` / `.strip()` are ASCII-faithful models (all
keyword tables and markers in the source are ASCII). -/

/-- Character-list version of "the first list begins with the second". -/
def beginsWith : List Char → List Char → Bool
  | [], _ => true
  | _ :: _, [] => false
  | p :: ps, c :: cs => p == c && beginsWith ps cs

/-- First index (in characters) at which `pat` occurs in `s`, scanning left to
right; `none` when absent.  Models Python `s.find(pat)` (which returns `-1`
when absent). -/
def findSubIdx (pat : List Char) : List Char → Nat → Option Nat
  | s, i =>
    if beginsWith pat s then some i
    else
      match s with
      | [] => none
      | _ :: cs => findSubIdx pat cs (i + 1)

/-- Python `pat in s` (substring containment). -/
def strContainsSub (s pat : String) : Bool :=
  (findSubIdx pat.data s.data 0).isSome

/-- Python `s.find(pat)` as an `Option Nat` over characters. -/
def strFindIdx (s pat : String) : Option Nat :=
  findSubIdx pat.data s.data 0

/-- ASCII lowercase of one character (model of `str.lower` on the ASCII
keyword tables used by the source). -/
def lowerChar (c : Char) : Char :=
  if 'A' ≤ c && c ≤ 'Z' then Char.ofNat (c.toNat + 32) else c

/-- Python `s.lower()` (ASCII model). -/
def strLower (s : String) : String :=
  ⟨s.data.map lowerChar⟩

/-- ASCII uppercase of one character (model of `str.upper`). -/
def upperChar (c : Char) : Char :=
  if 'a' ≤ c && c ≤ 'z' then Char.ofNat (c.toNat - 32) else c

/-- Python `s.upper()` (ASCII model). -/
def strUpper (s : String) : String :=
  ⟨s.data.map upperChar⟩

/-- Whitespace characters stripped by Python `str.strip()`. -/
def isPyWs (c : Char) : Bool :=
  c == ' ' || c == '\t' || c == '\n' || c == '\r' || c == '\x0b' || c == '\x0c'

/-- Python `s.strip()`. -/
def strStrip (s : String) : String :=
  ⟨((s.data.dropWhile isPyWs).reverse.dropWhile isPyWs).reverse⟩

/-! ## JSON values and a model of `json.loads`

`Json` is the value domain of Python's `json` module, with numbers collapsed
to `ℚ` (this models both `int` and `float` results exactly on the decimal
literals the module accepts).  `jsonParse` is an executable model of
`json.loads`: it accepts the standard object / array / string / number /
`true` / `false` / `null` grammar (string escapes except `\uXXXX`) and
returns `none` where `json.loads` raises `JSONDecodeError` (or on inputs
outside the modelled subset, such as `NaN`). -/

inductive Json where
  | null
  | bool (b : Bool)
  | num (q : ℚ)
  | str (s : String)
  | arr (xs : List Json)
  | obj (kvs : List (String × Json))

/-- First value bound to `k` in an object's key/value list (Python dict lookup;
`json.loads` keeps the last duplicate key, but no claim involves duplicate
keys). -/
def jLookup (kvs : List (String × Json)) (k : String) : Option Json :=
  match kvs with
  | [] => none
  | (k', v) :: rest => if k' = k then some v else jLookup rest k

/-- Python `d.get(k, default)` on a JSON object. -/
def jGetD (kvs : List (String × Json)) (k : String) (dflt : Json) : Json :=
  (jLookup kvs k).getD dflt

/-- Skip JSON whitespace. -/
def jsonWs (cs : List Char) : List Char :=
  cs.dropWhile (fun c => c == ' ' || c == '\t' || c == '\n' || c == '\r')

def digitVal (c : Char) : Nat := c.toNat - '0'.toNat

def takeDigits : List Char → (List Char × List Char)
  | [] => ([], [])
  | c :: cs =>
    if c.isDigit then
      let (ds, rest) := takeDigits cs
      (c :: ds, rest)
    else ([], c :: cs)

def digitsToNat (ds : List Char) : Nat :=
  ds.foldl (fun acc c => acc * 10 + digitVal c) 0

/-- Parse the exponent part of a JSON number applied to `base`. -/
def parseJExp (base : ℚ) (cs : List Char) : Option (ℚ × List Char) :=
  match cs with
  | 'e' :: rest | 'E' :: rest =>
    let (negE, r2) :=
      match rest with
      | '-' :: r => (true, r)
      | '+' :: r => (false, r)
      | _ => (false, rest)
    let (eds, r3) := takeDigits r2
    if eds.isEmpty then none
    else if negE then some (base / ((10 : ℚ) ^ digitsToNat eds), r3)
    else some (base * ((10 : ℚ) ^ digitsToNat eds), r3)
  | _ => some (base, cs)

/-- Parse a JSON number (sign, integer part, optional fraction, optional
exponent) starting at `cs`. -/
def parseJNum (cs : List Char) : Option (ℚ × List Char) :=
  let (negV, cs1) :=
    match cs with
    | '-' :: rest => (true, rest)
    | _ => (false, cs)
  let (ids, cs2) := takeDigits cs1
  if ids.isEmpty then none
  else
    let ipart : ℚ := (digitsToNat ids : ℚ)
    match cs2 with
    | '.' :: rest =>
      let (fds, rest') := takeDigits rest
      if fds.isEmpty then none
      else
        let base := ipart + (digitsToNat fds : ℚ) / ((10 : ℚ) ^ fds.length)
        match parseJExp base rest' with
        | some (q, r) => some (if negV then -q else q, r)
        | none => none
    | _ =>
      match parseJExp ipart cs2 with
      | some (q, r) => some (if negV then -q else q, r)
      | none => none

/-- Parse the body of a JSON string after the opening quote. -/
def parseJStr : Nat → List Char → Option (String × List Char)
  | 0, _ => none
  | _ + 1, [] => none
  | fuel + 1, c :: cs =>
    if c == '"' then some ("", cs)
    else if c == '\\' then
      match cs with
      | [] => none
      | e :: cs' =>
        let dec : Option Char :=
          if e == '"' then some '"'
          else if e == '\\' then some '\\'
          else if e == '/' then some '/'
          else if e == 'n' then some '\n'
          else if e == 't' then some '\t'
          else if e == 'r' then some '\r'
          else none
        match dec with
        | none => none
        | some d =>
          match parseJStr fuel cs' with
          | some (s, rest) => some (⟨d :: s.data⟩, rest)
          | none => none
    else
      match parseJStr fuel cs with
      | some (s, rest) => some (⟨c :: s.data⟩, rest)
      | none => none

mutual

/-- Parse one JSON value (fuel-indexed recursive descent). -/
def parseJVal : Nat → List Char → Option (Json × List Char)
  | 0, _ => none
  | fuel + 1, cs =>
    match jsonWs cs with
    | [] => none
    | c :: rest =>
      if c == '{' then
        match jsonWs rest with
        | '}' :: r => some (.obj [], r)
        | cs' =>
          match parseJObjMembers fuel cs' with
          | some (kvs, r) => some (.obj kvs, r)
          | none => none
      else if c == '[' then
        match jsonWs rest with
        | ']' :: r => some (.arr [], r)
        | cs' =>
          match parseJArrElems fuel cs' with
          | some (xs, r) => some (.arr xs, r)
          | none => none
      else if c == '"' then
        match parseJStr (fuel + 1) rest with
        | some (s, r) => some (.str s, r)
        | none => none
      else if c == 't' then
        if beginsWith "rue".data rest then some (.bool true, rest.drop 3) else none
      else if c == 'f' then
        if beginsWith "alse".data rest then some (.bool false, rest.drop 4) else none
      else if c == 'n' then
        if beginsWith "ull".data rest then some (.null, rest.drop 3) else none
      else
        match parseJNum (c :: rest) with
        | some (q, r) => some (.num q, r)
        | none => none

/-- Parse the members of a non-empty JSON object body, positioned at a key. -/
def parseJObjMembers : Nat → List Char → Option (List (String × Json) × List Char)
  | 0, _ => none
  | fuel + 1, cs =>
    match cs with
    | '"' :: rest =>
      match parseJStr (fuel + 1) rest with
      | some (k, r1) =>
        match jsonWs r1 with
        | ':' :: r2 =>
          match parseJVal fuel r2 with
          | some (v, r3) =>
            match jsonWs r3 with
            | '}' :: r4 => some ([(k, v)], r4)
            | ',' :: r4 =>
              match parseJObjMembers fuel (jsonWs r4) with
              | some (kvs, r5) => some ((k, v) :: kvs, r5)
              | none => none
            | _ => none
          | none => none
        | _ => none
      | none => none
    | _ => none

/-- Parse the elements of a non-empty JSON array body, positioned at a value. -/
def parseJArrElems : Nat → List Char → Option (List Json × List Char)
  | 0, _ => none
  | fuel + 1, cs =>
    match parseJVal fuel cs with
    | some (v, r1) =>
      match jsonWs r1 with
      | ']' :: r2 => some ([v], r2)
      | ',' :: r2 =>
        match parseJArrElems fuel (jsonWs r2) with
        | some (xs, r3) => some (v :: xs, r3)
        | none => none
      | _ => none
    | none => none

end

/-- Model of Python `json.loads`: parse the whole string as one JSON value
(with surrounding whitespace allowed); `none` models `JSONDecodeError`. -/
def jsonParse (s : String) : Option Json :=
  match parseJVal (s.length + 1) s.data with
  | some (v, rest) => if jsonWs rest == [] then some v else none
  | none => none

/-! ## Intent classifier

Transcription of `IntentClassifier.classify`
(`backend/agents/intent_classifier.py`, lines 15-104).  All keyword tests are
substring tests against the lowercased prompt. -/

def modify_keywords : List String :=
  ["add", "change", "modify", "update", "replace", "remove", "delete",
   "switch", "edit", "make it", "make them"]

def query_keywords : List String :=
  ["what", "which", "where", "when", "how", "why", "tell me", "explain",
   "describe", "information", "details", "about", "more about", "is the",
   "are the", "can you tell", "do you know"]

def chat_keywords : List String :=
  ["hello", "hi", "hey", "thanks", "thank you", "ok", "okay", "sure", "yes", "no"]

/-- Python `any(keyword in prompt_lower for keyword in kws)`. -/
def anyKw (pl : String) (kws : List String) : Bool :=
  kws.any (fun k => strContainsSub pl k)

structure Classification where
  intent : String
  category : String
  action : String
  confidence : ℚ
  deriving DecidableEq, Repr

/-- IntentClassifier.classify (`intent_classifier.py`). -/
def classify (prompt : String) : Classification :=
  let pl := strLower prompt
  let hasQuery := anyKw pl query_keywords
  let hasModify := anyKw pl modify_keywords && !hasQuery
  let hasChat := anyKw pl chat_keywords && !hasQuery
  let category :=
    if anyKw pl ["hotel", "accommodation", "stay", "lodging", "place to stay"] then
      "accommodation"
    else if anyKw pl ["flight", "train", "bus", "car", "transport", "travel",
        "transportation", "ride"] then
      "transportation"
    else if anyKw pl ["restaurant", "food", "meal", "dining", "eat", "cafe",
        "lunch", "dinner", "breakfast"] then
      "restaurant"
    else if anyKw pl ["activity", "experience", "thing to do", "attraction",
        "tour", "sightseeing"] then
      "experience"
    else if anyKw pl ["budget", "cost", "price", "expensive", "cheap",
        "affordable", "money"] then
      "budget"
    else "general"
  let action :=
    if anyKw pl ["add", "more", "additional", "extra"] then "add"
    else if anyKw pl ["change", "modify", "update", "switch", "replace"] then "change"
    else if anyKw pl ["remove", "delete", "cancel"] then "remove"
    else if anyKw pl ["find", "get", "show", "give"] then "find"
    else if hasQuery then "info"
    else if hasChat then "chat"
    else "info"
  if hasQuery then ⟨"query", category, action, 9 / 10⟩
  else if hasModify then ⟨"modify", category, action, 8 / 10⟩
  else if hasChat then ⟨"chat", category, action, 9 / 10⟩
  else ⟨"query", category, action, 1 / 2⟩

/-! ## Retry/backoff controller

Model of `StayAgent._run_with_retry` / `PlannerAgent._run_with_retry`
(`stay_agent.py` lines 52-99, `planner_agent.py` lines 276-291): a tenacity
`retry` with `stop_after_attempt(3)`, `reraise=True` and
`retry_if_exception_message(match=r".*(rate limit|429|quota|too many requests|resource exhausted).*")`.
The wrapped generation-service call is abstracted as `f : Nat → Except String α`
giving the outcome of each attempt (the backoff sleeps have no effect on the
result and are not modelled).  The tenacity message regex is satisfied exactly
when one of the five markers occurs in the message (the regex's dots do not
cross newlines; the markers in scope here are single-line). -/

def rate_limit_markers : List String :=
  ["rate limit", "429", "quota", "too many requests", "resource exhausted"]

def matchesRateLimit (msg : String) : Bool :=
  rate_limit_markers.any (fun m => strContainsSub msg m)

/-- The retry controller (tenacity loop with `stop_after_attempt(3)`
unrolled): after a failed attempt, a non-matching message re-raises at once;
a matching message retries until the third attempt, whose outcome is
surfaced (`reraise=True`).  Returns the final outcome and the total number
of calls made. -/
def run_with_retry {α : Type} (f : Nat → Except String α) : Except String α × Nat :=
  match f 1 with
  | .ok v => (.ok v, 1)
  | .error e1 =>
    if matchesRateLimit e1 then
      match f 2 with
      | .ok v => (.ok v, 2)
      | .error e2 =>
        if matchesRateLimit e2 then (f 3, 3)
        else (.error e2, 2)
    else (.error e1, 1)

/-- The `except Exception as e` wrapper in `StayAgent.process` /
`PlannerAgent.process`: classify the surfaced error text (lowercased) and
re-raise with guidance. -/
def processWrapMsg (e : String) : String :=
  let el := strLower e
  if strContainsSub el "rate limit" || strContainsSub el "429" ||
      strContainsSub el "quota" || strContainsSub el "resource exhausted" then
    "API rate limit exceeded. Please wait a few minutes and try again. " ++
      "The Google Gemini API has usage limits. Consider upgrading your plan or waiting before retrying."
  else
    "Error calling Google Gemini API: " ++ e ++ ". Make sure GOOGLE_API_KEY is set correctly."

/-- Generation-service call as made by `process`: retry controller plus the
guidance wrapper on failure. -/
def callWithGuidance {α : Type} (f : Nat → Except String α) : Except String α × Nat :=
  match run_with_retry f with
  | (.ok v, n) => (.ok v, n)
  | (.error e, n) => (.error (processWrapMsg e), n)

/-! ## Transportation candidates and the mode scoring / route selector

Model of `shared/types.py` `Transportation` (the fields the selector and the
budget stage read) and of `TravelAgent._calculate_score` /
`_mark_recommendations` (`travel_agent.py` lines 272-337).  Floats are `ℚ`;
`Optional` fields are `Option`; Python truthiness (`if option.duration_minutes:`)
tests both presence and non-zero. -/

structure Transportation where
  id : String
  type : String
  origin : String
  destination : String
  durationMinutes : Option ℤ
  price : ℚ
  pricePerPerson : Option ℚ
  provider : String
  carbonEmissionsKg : Option ℚ
  recommended : Bool
  recommendationReason : Option String
  deriving DecidableEq, Repr

/-- TravelAgent._calculate_score (`travel_agent.py` lines 318-337). -/
def calculate_score (o : Transportation) (priority : String) : ℚ :=
  if priority = "cheapest" then
    if 0 < o.price then 1000 / o.price else 0
  else if priority = "fastest" then
    match o.durationMinutes with
    | some d => if d = 0 then 0 else 1000 / (d : ℚ)
    | none => 0
  else if priority = "greenest" then
    match o.carbonEmissionsKg with
    | some e => if e = 0 then 0 else 1000 / (e + 1)
    | none => 0
  else
    let priceScore := if 0 < o.price then 1000 / (o.price + 1) else 0
    let timeScore :=
      match o.durationMinutes with
      | some d => if d = 0 then 0 else 1000 / ((d : ℚ) + 1)
      | none => 0
    let greenScore :=
      match o.carbonEmissionsKg with
      | some e => if e = 0 then 0 else 1000 / (e + 1)
      | none => 0
    priceScore * (3 / 10) + timeScore * (3 / 10) + greenScore * (4 / 10)

/-- Maximum of `x :: xs`. -/
def foldMax (x : ℚ) (xs : List ℚ) : ℚ := xs.foldl max x

/-- First index at which `m` occurs (callers establish membership). -/
def idxOfQ (m : ℚ) : List ℚ → Nat
  | [] => 0
  | x :: xs => if x = m then 0 else idxOfQ m xs + 1

/-- Index of the first element attaining the maximum.  This is the index the
source selects: it sorts `(score, option)` pairs descending by score with
Python's stable sort and takes the head, i.e. the earliest maximal-score
element. -/
def firstArgmax : List ℚ → Option Nat
  | [] => none
  | x :: xs => some (idxOfQ (foldMax x xs) (x :: xs))

def markReason (o : Transportation) (priority : String) : String :=
  "Best " ++ o.type ++ " option based on " ++ priority ++ " priority"

/-- Setting `recommended` / `recommendation_reason` on the top option. -/
def markT (priority : String) (o : Transportation) : Transportation :=
  { o with recommended := true, recommendationReason := some (markReason o priority) }

/-- TravelAgent._mark_recommendations (`travel_agent.py` lines 272-316) at the
call site in `process` (line 196), where `routes = []`: score
`flights + trains`, mark the first top scorer.  The Python function mutates
one element in place; the model returns the combined list with that element
updated. -/
def mark_recommendations (flights trains : List Transportation) (priority : String) :
    List Transportation :=
  match firstArgmax ((flights ++ trains).map (fun o => calculate_score o priority)) with
  | none => flights ++ trains
  | some i =>
    match (flights ++ trains).get? i with
    | some o => (flights ++ trains).set i (markT priority o)
    | none => flights ++ trains

/-- The marking step of `TravelAgent.process` (lines 194-214): the run's full
candidate list is `flights + trains + cars + buses`, but only
`flights + trains` is passed to `_mark_recommendations`; cars and buses are
never scored. -/
def process_marking (flights trains cars buses : List Transportation)
    (priority : String) : List Transportation :=
  mark_recommendations flights trains priority ++ cars ++ buses

/-- Number of candidates carrying `recommended=true`. -/
def countRecommended (l : List Transportation) : Nat :=
  l.countP (fun o => o.recommended)

/-! ## Stage result records and the budget stage

Records carry exactly the fields the embedded operations read.  Floats are
`ℚ`. -/

structure PyAccommodation where
  id : String
  title : String
  description : String
  lat : ℚ
  lng : ℚ
  address : String
  price_per_night : ℚ
  total_price : ℚ
  amenities : List String
  rating : Option ℚ
  review_count : Option ℤ
  images : List String
  booking_url : Option String
  source : String
  deriving DecidableEq, Repr

structure PyRestaurant where
  average_price_per_person : Option ℚ
  price_range : String
  deriving DecidableEq, Repr

structure PyExperience where
  price : Option ℚ
  deriving DecidableEq, Repr

structure StayResults where
  accommodations : List PyAccommodation
  deriving DecidableEq, Repr

structure TravelResults where
  transportation : List Transportation
  deriving DecidableEq, Repr

structure RestaurantResults where
  restaurants : List PyRestaurant
  deriving DecidableEq, Repr

structure ExperienceResults where
  experiences : List PyExperience
  deriving DecidableEq, Repr

/-- The fields of `TripRequest` (`shared/types.py`) read by the embedded
operations. -/
structure TripRequestM where
  prompt : String
  duration_days : Option ℕ
  travelers : ℕ
  selected_accommodation_id : Option String
  deriving DecidableEq, Repr

/-- Python `opt or dflt` on an optional int (`None` and `0` are falsy). -/
def pyOrNat (o : Option ℕ) (dflt : ℕ) : ℕ :=
  match o with
  | some n => if n = 0 then dflt else n
  | none => dflt

/-- Python `n or dflt` on an int. -/
def pyOrNatV (n : ℕ) (dflt : ℕ) : ℕ :=
  if n = 0 then dflt else n

/-- Average-price branch of `BudgetAgent._calculate_accommodation_cost`. -/
def accommodationAvg (accs : List PyAccommodation) (duration : ℕ) : ℚ :=
  let total := accs.foldl
    (fun t a => t + (if 0 < a.total_price then a.total_price
                     else a.price_per_night * (duration : ℚ))) 0
  if 0 < accs.length then total / (accs.length : ℚ) else 0

/-- BudgetAgent._calculate_accommodation_cost (`budget_agent.py` lines 92-125). -/
def calculate_accommodation_cost (stay : Option StayResults) (req : TripRequestM)
    (duration : ℕ) : ℚ :=
  match stay with
  | none => 0
  | some s =>
    if s.accommodations.isEmpty then 0
    else
      match req.selected_accommodation_id with
      | some selId =>
        if selId = "" then accommodationAvg s.accommodations duration
        else
          match s.accommodations.find? (fun a => a.id = selId) with
          | some a =>
            if 0 < a.total_price then a.total_price
            else a.price_per_night * (duration : ℚ)
          | none => accommodationAvg s.accommodations duration
      | none => accommodationAvg s.accommodations duration

/-- Python `trans.price_per_person if trans.price_per_person else trans.price`. -/
def effPrice (t : Transportation) : ℚ :=
  match t.pricePerPerson with
  | some p => if p = 0 then t.price else p
  | none => t.price

/-- First candidate with `recommended=true` (the loop breaks there). -/
def findRecommendedT : List Transportation → Option Transportation
  | [] => none
  | t :: ts => if t.recommended then some t else findRecommendedT ts

/-- First candidate attaining the strictly smallest effective price. -/
def cheapestT (l : List Transportation) : Option Transportation :=
  (l.foldl
    (fun acc t =>
      match acc with
      | none => some (effPrice t, t)
      | some (p, c) => if effPrice t < p then some (effPrice t, t) else some (p, c))
    none).map (·.2)

/-- BudgetAgent._calculate_transportation_cost (`budget_agent.py` lines
127-168). -/
def calculate_transportation_cost (travel : Option TravelResults)
    (travelers : ℕ) : ℚ :=
  match travel with
  | none => 0
  | some tv =>
    if tv.transportation.isEmpty then 0
    else
      let selected :=
        match findRecommendedT tv.transportation with
        | some t => some t
        | none => cheapestT tv.transportation
      match selected with
      | none => 0
      | some sel =>
        match sel.pricePerPerson with
        | some p =>
          if p = 0 then sel.price * (travelers : ℚ) * 2
          else p * (travelers : ℚ) * 2
        | none => sel.price * (travelers : ℚ) * 2

/-- BudgetAgent._estimate_price_from_range (`budget_agent.py` lines 214-226). -/
def estimate_price_from_range (pr : String) : ℚ :=
  let p := strUpper (strStrip pr)
  if p = "$" then 15
  else if p = "$$" then 35
  else if p = "$$$" then 65
  else if p = "$$$$" then 100
  else 50

/-- BudgetAgent._calculate_meals_cost (`budget_agent.py` lines 170-212). -/
def calculate_meals_cost (restR : Option RestaurantResults)
    (duration travelers : ℕ) : ℚ :=
  match restR with
  | none => 50 * (duration : ℚ) * (travelers : ℚ)
  | some rr =>
    if rr.restaurants.isEmpty then 50 * (duration : ℚ) * (travelers : ℚ)
    else
      let total_price := rr.restaurants.foldl
        (fun t r => t +
          (match r.average_price_per_person with
           | some p => if p = 0 then estimate_price_from_range r.price_range else p
           | none => estimate_price_from_range r.price_range)) 0
      let count := rr.restaurants.length
      let avg := if count = 0 then (50 : ℚ) else total_price / (count : ℚ)
      let breakfast := avg * (6 / 10)
      let lunch_dinner := avg * 2
      ((breakfast + lunch_dinner) * (travelers : ℚ)) * (duration : ℚ)

/-- BudgetAgent._calculate_experiences_cost (`budget_agent.py` lines 228-249). -/
def calculate_experiences_cost (expR : Option ExperienceResults)
    (travelers : ℕ) : ℚ :=
  match expR with
  | none => 0
  | some er =>
    if er.experiences.isEmpty then 0
    else er.experiences.foldl
      (fun t e => t +
        (match e.price with
         | some p => if p = 0 then 0 else p * (travelers : ℚ)
         | none => 0)) 0

/-- Round half to even on an exact rational (the rounding Python's `round`
performs on the exact decimal value; the embedding works over exact `ℚ`
instead of binary floats). -/
def roundHalfEven (q : ℚ) : ℤ :=
  let f := ⌊q⌋
  let r := q - (f : ℚ)
  if r < 1 / 2 then f
  else if 1 / 2 < r then f + 1
  else if f % 2 = 0 then f else f + 1

/-- Python `round(q, 2)` over exact rationals. -/
def pyRound2 (q : ℚ) : ℚ :=
  ((roundHalfEven (q * 100) : ℚ)) / 100

structure BudgetBreakdown where
  accommodation : ℚ
  transportation : ℚ
  experiences : ℚ
  meals : ℚ
  miscellaneous : ℚ
  total : ℚ
  currency : String
  deriving DecidableEq, Repr

/-- BudgetAgent.process (`budget_agent.py` lines 24-90): each component
rounded to 2 decimals, 12% miscellaneous buffer, total rounded separately. -/
def budget_process (req : TripRequestM) (stay : Option StayResults)
    (travel : Option TravelResults) (expR : Option ExperienceResults)
    (restR : Option RestaurantResults) : BudgetBreakdown :=
  let duration := pyOrNat req.duration_days 5
  let travelers := pyOrNatV req.travelers 1
  let accommodation_cost := calculate_accommodation_cost stay req duration
  let transportation_cost := calculate_transportation_cost travel travelers
  let meals_cost := calculate_meals_cost restR duration travelers
  let experiences_cost := calculate_experiences_cost expR travelers
  let subtotal := accommodation_cost + transportation_cost + meals_cost + experiences_cost
  let miscellaneous_cost := subtotal * (12 / 100)
  let total := subtotal + miscellaneous_cost
  { accommodation := pyRound2 accommodation_cost
    transportation := pyRound2 transportation_cost
    experiences := pyRound2 experiences_cost
    meals := pyRound2 meals_cost
    miscellaneous := pyRound2 miscellaneous_cost
    total := pyRound2 total
    currency := "USD" }

/-- Fallback branch of `PlannerAgent._calculate_budget` (`planner_agent.py`
lines 406-453), used when no budget stage result is available (when one is
available it is returned unchanged). -/
def calculate_budget_fallback (accommodation : Option PyAccommodation)
    (restaurants : List PyRestaurant) (duration travelers : ℕ) : BudgetBreakdown :=
  let accommodation_cost : ℚ :=
    match accommodation with
    | none => 0
    | some a =>
      if a.total_price = 0 then
        (if a.price_per_night = 0 then 0 else a.price_per_night) * (duration : ℚ)
      else a.total_price
  let meal_cost_per_day : ℚ :=
    if restaurants.isEmpty then 50
    else
      let firstN := restaurants.take 5
      let total_price := firstN.foldl
        (fun t r => t +
          (match r.average_price_per_person with
           | some p => if p = 0 then 30 else p
           | none => 30)) 0
      (total_price / (firstN.length : ℚ)) * 2
  let meals_cost := meal_cost_per_day * (duration : ℚ) * (travelers : ℚ)
  let subtotal := accommodation_cost + meals_cost
  let miscellaneous := subtotal * (1 / 10)
  { accommodation := accommodation_cost
    transportation := 0
    experiences := 0
    meals := meals_cost
    miscellaneous := miscellaneous
    total := accommodation_cost + meals_cost + miscellaneous
    currency := "USD" }

/-! ## Structured extraction engine (StayAgent._parse_results)

Models of the Python builtins and pydantic coercions the record constructor
applies, then `_create_accommodation_from_dict`, `_extract_from_text` and
`_parse_results` (`stay_agent.py` lines 223-346).  A coercion failure raising
`ValueError`/`TypeError` is `none` (the constructor catches those and drops
the record); `AttributeError`/`TypeError` raised outside any matching handler
is an `Except.error`. -/

/-- Python `float(s)` on a string: optional surrounding whitespace and sign,
decimal digits with optional fraction and exponent (`inf`/`nan` are outside
the modelled subset). -/
def parseFloatStr (s : String) : Option ℚ :=
  let cs := ((s.data.dropWhile isPyWs).reverse.dropWhile isPyWs).reverse
  let (negV, cs1) :=
    match cs with
    | '-' :: r => (true, r)
    | '+' :: r => (false, r)
    | _ => (false, cs)
  let (ids, cs2) := takeDigits cs1
  match cs2 with
  | '.' :: rest =>
    let (fds, rest') := takeDigits rest
    if ids.isEmpty && fds.isEmpty then none
    else
      let base := (digitsToNat ids : ℚ) + (digitsToNat fds : ℚ) / ((10 : ℚ) ^ fds.length)
      match parseJExp base rest' with
      | some (q, []) => some (if negV then -q else q)
      | _ => none
  | _ =>
    if ids.isEmpty then none
    else
      match parseJExp (digitsToNat ids : ℚ) cs2 with
      | some (q, []) => some (if negV then -q else q)
      | _ => none

/-- Python `float(v)` on a JSON value (`bool` is an `int` in Python;
`None`/lists/dicts raise `TypeError`, unparseable strings `ValueError` —
both are caught at the record level, hence `none`). -/
def pyFloat : Json → Option ℚ
  | .num q => some q
  | .bool b => some (if b then 1 else 0)
  | .str s => parseFloatStr s
  | _ => none

/-- Python `int(s)` on a string: optional whitespace/sign, digits only. -/
def pyIntStr (s : String) : Option ℤ :=
  let cs := ((s.data.dropWhile isPyWs).reverse.dropWhile isPyWs).reverse
  let (negV, cs1) :=
    match cs with
    | '-' :: r => (true, r)
    | '+' :: r => (false, r)
    | _ => (false, cs)
  let (ds, rest) := takeDigits cs1
  if ds.isEmpty || !rest.isEmpty then none
  else some ((if negV then -1 else 1) * (digitsToNat ds : ℤ))

/-- Python `int(v)` on a JSON value; floats truncate toward zero. -/
def pyInt : Json → Option ℤ
  | .num q => some (Int.tdiv q.num (q.den : ℤ))
  | .bool b => some (if b then 1 else 0)
  | .str s => pyIntStr s
  | _ => none

/-- pydantic coercion to `str` (lax mode accepts only `str`). -/
def asString : Json → Option String
  | .str s => some s
  | _ => none

/-- pydantic coercion to `List[str]`. -/
def asStringList : Json → Option (List String)
  | .arr xs =>
    xs.foldr
      (fun j acc =>
        match asString j, acc with
        | some s, some l => some (s :: l)
        | _, _ => none)
      (some [])
  | _ => none

/-- pydantic coercion to `Optional[float]` (numbers and numeric strings). -/
def asOptFloat : Json → Option (Option ℚ)
  | .null => some none
  | .num q => some (some q)
  | .str s => (parseFloatStr s).map some
  | _ => none

/-- pydantic coercion to `Optional[int]`. -/
def asOptInt : Json → Option (Option ℤ)
  | .null => some none
  | .num q => if q.den = 1 then some (some q.num) else none
  | .str s => (pyIntStr s).map some
  | _ => none

/-- pydantic coercion to `Optional[str]`. -/
def asOptString : Json → Option (Option String)
  | .null => some none
  | .str s => some (some s)
  | _ => none

/-- StayAgent._create_accommodation_from_dict (`stay_agent.py` lines 268-305).
A non-dict record raises `AttributeError` on `data.get` — outside the
`except (KeyError, ValueError, TypeError)` handler, so it escapes.  Inside a
dict record, a failed numeric/pydantic coercion is caught and the record is
dropped (`.ok none`). -/
def create_accommodation_from_dict (duration : ℚ) (j : Json) :
    Except PyErr (Option PyAccommodation) :=
  match j with
  | .obj kvs =>
    let comp : Option PyAccommodation := do
      let pn ← pyFloat (jGetD kvs "price_per_night" (jGetD kvs "price" (.num 0)))
      let total := pn * duration
      let loc ←
        match jLookup kvs "location" with
        | some (.obj locKvs) => do
          let la ← pyFloat (jGetD locKvs "lat" (.num 0))
          let ln ← pyFloat (jGetD locKvs "lng" (.num 0))
          pure (la, ln)
        | _ => pure ((0 : ℚ), (0 : ℚ))
      let idv ← asString (jGetD kvs "id" (.str ("acc_" ++ toString kvs.length)))
      let title ← asString (jGetD kvs "title" (jGetD kvs "name" (.str "Unknown Property")))
      let desc ← asString (jGetD kvs "description" (.str ""))
      let addr ← asString (jGetD kvs "address" (.str ""))
      let amen ← asStringList (jGetD kvs "amenities" (.arr []))
      let rating ← asOptFloat (jGetD kvs "rating" .null)
      let rc ← asOptInt (jGetD kvs "review_count" .null)
      let imgs ← asStringList (jGetD kvs "images" (.arr []))
      let burl ← asOptString (jGetD kvs "booking_url" (jGetD kvs "url" .null))
      let src ← asString (jGetD kvs "source" (.str "airbnb"))
      pure { id := idv, title := title, description := desc, lat := loc.1,
             lng := loc.2, address := addr, price_per_night := pn,
             total_price := total, amenities := amen, rating := rating,
             review_count := rc, images := imgs, booking_url := burl,
             source := src }
    match comp with
    | some a => .ok (some a)
    | none => .ok none
  | _ => .error .attributeError

/-- Python `text.split("\n")`. -/
def splitLines (s : String) : List String :=
  (s.data.splitOn '\n').map (fun l => (⟨l⟩ : String))

/-- First match of the fallback price regex `\$?(\d+(?:\.\d{2})?)` in a line:
the first digit run, extended by `.dd` when exactly followed by two digits. -/
def firstNumberToken : List Char → Option ℚ
  | [] => none
  | c :: cs =>
    if c.isDigit then
      let (ds, rest) := takeDigits (c :: cs)
      match rest with
      | '.' :: a :: b :: _ =>
        if a.isDigit && b.isDigit then
          some ((digitsToNat ds : ℚ) + ((digitVal a * 10 + digitVal b : ℕ) : ℚ) / 100)
        else some (digitsToNat ds : ℚ)
      | _ => some (digitsToNat ds : ℚ)
    else firstNumberToken cs

/-- Line scan of `_extract_from_text`: first price found on a line containing
`$`, `USD` or `price` (case-insensitive); 0.0 when none. -/
def findPriceInLines : List String → ℚ
  | [] => 0
  | l :: ls =>
    if strContainsSub l "$" || strContainsSub l "USD" ||
        strContainsSub (strLower l) "price" then
      match firstNumberToken l.data with
      | some p => p
      | none => findPriceInLines ls
    else findPriceInLines ls

/-- StayAgent._extract_from_text (`stay_agent.py` lines 307-346): the
unconditional one-record fallback. -/
def extract_from_text (text : String) (duration : ℚ) : PyAccommodation :=
  let price := findPriceInLines (splitLines text)
  { id := "acc_text_1", title := "Accommodation Recommendation",
    description := ⟨text.data.take 500⟩, lat := 0, lng := 0, address := "",
    price_per_night := price, total_price := price * duration, amenities := [],
    rating := none, review_count := none, images := [], booking_url := none,
    source := "unknown" }

/-- The fenced-block location step shared by the extractors: content between
`"```json"` (plus 7) and the next `"```"`; when no closing fence exists the
slice `output[json_start:-1]` drops the final character. -/
def extract_fenced_json (output : String) : Option String :=
  match strFindIdx output "```json" with
  | none => none
  | some i =>
    let tail := output.data.drop (i + 7)
    match findSubIdx "```".data tail 0 with
    | some k => some (strStrip ⟨tail.take k⟩)
    | none => some (strStrip ⟨tail.dropLast⟩)

/-- The record loop of `_parse_results`: construct each record, drop the
dropped ones, propagate an escaping exception. -/
def collectAccs (duration : ℚ) : List Json → Except PyErr (List PyAccommodation)
  | [] => .ok []
  | it :: rest =>
    match create_accommodation_from_dict duration it with
    | .error e => .error e
    | .ok none => collectAccs duration rest
    | .ok (some a) =>
      match collectAccs duration rest with
      | .error e => .error e
      | .ok l => .ok (a :: l)

/-- StayAgent._parse_results (`stay_agent.py` lines 223-266).  Iterating a
string or dict bound to `"accommodations"` feeds non-dict items to the record
constructor (`AttributeError`); iterating a number/bool/null raises
`TypeError`; neither is caught by `except (json.JSONDecodeError, KeyError,
ValueError)`.  When the structured path yields no records the one-record text
fallback runs. -/
def parse_results (output : String) (duration : ℚ) :
    Except PyErr (List PyAccommodation) :=
  let structured : Except PyErr (List PyAccommodation) :=
    match extract_fenced_json output with
    | none => .ok []
    | some s =>
      match jsonParse s with
      | none => .ok []
      | some (.arr items) => collectAccs duration items
      | some (.obj kvs) =>
        match jLookup kvs "accommodations" with
        | some (.arr items) => collectAccs duration items
        | some (.str st) => if st.data.isEmpty then .ok [] else .error .attributeError
        | some (.obj kvs2) => if kvs2.isEmpty then .ok [] else .error .attributeError
        | some _ => .error .typeError
        | none => .ok []
      | some _ => .ok []
  match structured with
  | .error e => .error e
  | .ok accs =>
    if accs.isEmpty then .ok [extract_from_text output duration] else .ok accs

/-! ## Flight extraction (FlightSearchAgent._parse_flight_results)

Transcription of `flight_search_agent.py` lines 92-351: the three JSON
decoding methods, the record constructor `_create_flight_from_dict`, and the
text-scan fallback `_extract_flights_from_text`.  Python `str()` of a JSON
value is modelled exactly on the values `json.loads` produces (every float it
returns is a finite decimal); `hash()` of a string is seed-randomized in
CPython, so the hash suffix of generated ids is modelled as 0 (no claim reads
ids).  Every call site passes `travelers ≥ 1`, so `/ travelers` never
divides by zero. -/

/-- Python truthiness of a JSON value. -/
def pyTruthy : Json → Bool
  | .null => false
  | .bool b => b
  | .num q => decide (q ≠ 0)
  | .str s => !s.data.isEmpty
  | .arr xs => !xs.isEmpty
  | .obj kvs => !kvs.isEmpty

/-- Python `v == ""` on a JSON value. -/
def isEmptyStrJson : Json → Bool
  | .str s => s.data.isEmpty
  | _ => false

/-- Smallest exponent `k ≥ 1` with `q·10^k` integral, fuel-bounded (every
float `json.loads` yields is a finite decimal, so the fuel suffices on all
reachable values). -/
def decExpGo (q : ℚ) : ℕ → ℕ → Option ℕ
  | 0, _ => none
  | fuel + 1, k =>
    if (q * (10 : ℚ) ^ k).den = 1 then some k else decExpGo q fuel (k + 1)

/-- Decimal rendering of a JSON number as Python `str()` prints the results
of `json.loads` (parsed ints print without a decimal point; the model does
not distinguish an integral float, whose digits the price regex treats
identically). -/
def decimalStr (q : ℚ) : String :=
  if q.den = 1 then toString q.num
  else
    match decExpGo q 60 1 with
    | some k =>
      let m := (q * (10 : ℚ) ^ k).num
      let ds := (toString m.natAbs).data
      let padded := List.replicate (k + 1 - ds.length) '0' ++ ds
      (if m < 0 then "-" else "") ++ (⟨padded.take (padded.length - k)⟩ : String)
        ++ "." ++ (⟨padded.drop (padded.length - k)⟩ : String)
    | none => toString q.num ++ "/" ++ toString q.den

/-- `", ".join(...)`-style concatenation. -/
def joinStrs (sep : String) : List String → String
  | [] => ""
  | [x] => x
  | x :: xs => x ++ sep ++ joinStrs sep xs

/-- Python `repr()` of a JSON value (what `str()` uses for the elements of a
container), fuel-indexed over the nesting depth; strings are single-quoted
(the escaping of quotes inside them is outside the modelled subset and never
affects a digit scan). -/
def pyReprF : ℕ → Json → String
  | _, .null => "None"
  | _, .bool true => "True"
  | _, .bool false => "False"
  | _, .num q => decimalStr q
  | _, .str s => "'" ++ s ++ "'"
  | 0, .arr _ => "[]"
  | fuel + 1, .arr xs => "[" ++ joinStrs ", " (xs.map (pyReprF fuel)) ++ "]"
  | 0, .obj _ => "\x7b\x7d"
  | fuel + 1, .obj kvs =>
    "\x7b" ++ joinStrs ", "
      (kvs.map (fun kv => "'" ++ kv.1 ++ "': " ++ pyReprF fuel kv.2)) ++ "\x7d"

/-- Fuel bounding the nesting depth a printed value may have; it dominates
the depth of every value `json.loads` can return from any output the model
evaluates (`jsonParse` consumes at least one character per nesting level). -/
def reprFuel : ℕ := 1000000000

/-- Python `str()` of a JSON value. -/
def pyStr : Json → String
  | .str s => s
  | j => pyReprF reprFuel j

/-- The `(?:,\d{3})*` tail of the price regexes: repeatedly consume a comma
followed by exactly three digits, extending the numeric value. -/
def commaGroups : ℕ → List Char → (ℕ × List Char)
  | acc, ',' :: a :: b :: c :: rest =>
    if a.isDigit && b.isDigit && c.isDigit then
      commaGroups (acc * 1000 + (digitVal a * 100 + digitVal b * 10 + digitVal c)) rest
    else (acc, ',' :: a :: b :: c :: rest)
  | acc, rest => (acc, rest)

/-- First match of the price regex `\$?(\d+(?:,\d{3})*(?:\.\d{2})?)`: the
leftmost digit run, extended by comma groups and an optional two-digit
decimal part (the optional `$` does not affect the captured group). -/
def jsonPriceTok : List Char → Option ℚ
  | [] => none
  | c :: cs =>
    if c.isDigit then
      let (ds, rest) := takeDigits (c :: cs)
      let (whole, rest2) := commaGroups (digitsToNat ds) rest
      match rest2 with
      | '.' :: a :: b :: _ =>
        if a.isDigit && b.isDigit then
          some ((whole : ℚ) + ((digitVal a * 10 + digitVal b : ℕ) : ℚ) / 100)
        else some (whole : ℚ)
      | _ => some (whole : ℚ)
    else jsonPriceTok cs

/-- First match of the text price regex `\$(\d{1,3}(?:,\d{3})*(?:\.\d{2})?)`:
a dollar sign then one to three digits; a longer digit run captures only its
first three digits, since neither a comma group nor a decimal part can start
at the following digit. -/
def dollarPriceTok : List Char → Option ℚ
  | [] => none
  | ['$'] => none
  | '$' :: c :: cs =>
    if c.isDigit then
      let (ds, rest1) := takeDigits (c :: cs)
      if ds.length ≤ 3 then
        let (whole, rest2) := commaGroups (digitsToNat ds) rest1
        match rest2 with
        | '.' :: a :: b :: _ =>
          if a.isDigit && b.isDigit then
            some ((whole : ℚ) + ((digitVal a * 10 + digitVal b : ℕ) : ℚ) / 100)
          else some (whole : ℚ)
        | _ => some (whole : ℚ)
      else some ((digitsToNat (ds.take 3) : ℕ) : ℚ)
    else dollarPriceTok (c :: cs)
  | _ :: rest => dollarPriceTok rest

/-- First match of `(\d+)c` for a literal character `c`: a maximal digit run
immediately followed by `c` (a shorter suffix of a run cannot match because
the character after it is a digit); `acc` holds the current run reversed. -/
def findNumBeforeGo (c : Char) (acc : List Char) : List Char → Option ℕ
  | [] => none
  | x :: xs =>
    if x.isDigit then findNumBeforeGo c (x :: acc) xs
    else if x == c && !acc.isEmpty then some (digitsToNat acc.reverse)
    else findNumBeforeGo c [] xs

/-- Alternatives of the duration regex's hour group `hours?|hrs?|h`, longest
first as the greedy alternation matches. -/
def hour_words : List String := ["hours", "hour", "hrs", "hr", "h"]

/-- Alternatives of the minute group `minutes?|mins?|m`. -/
def minute_words : List String := ["minutes", "minute", "mins", "min", "m"]

/-- `\s*` then one word of an alternation; returns the characters after the
matched word. -/
def wordAfterSpaces (words : List String) (cs : List Char) : Option (List Char) :=
  let cs' := cs.dropWhile isPyWs
  match words.find? (fun w => beginsWith w.data cs') with
  | some w => some (cs'.drop w.length)
  | none => none

/-- First match of the fallback duration regex
`(\d+)\s*(?:hours?|hrs?|h)\s*(?:(\d+)\s*(?:minutes?|mins?|m))?` over the
lowercased paragraph; `acc` holds the current digit run reversed. -/
def findDurationGo (acc : List Char) : List Char → Option ℤ
  | [] => none
  | x :: xs =>
    if x.isDigit then findDurationGo (x :: acc) xs
    else if acc.isEmpty then findDurationGo [] xs
    else
      match wordAfterSpaces hour_words (x :: xs) with
      | some rest2 =>
        let rest3 := rest2.dropWhile isPyWs
        let mins :=
          match takeDigits rest3 with
          | ([], _) => 0
          | (ms, rest4) =>
            match wordAfterSpaces minute_words rest4 with
            | some _ => digitsToNat ms
            | none => 0
        some ((digitsToNat acc.reverse * 60 + mins : ℕ) : ℤ)
      | none => findDurationGo [] xs

/-- The airline alternation searched inside `_create_flight_from_dict`
(`flight_search_agent.py` line 246). -/
def airline_names_dict : List String :=
  ["United", "Delta", "American", "Lufthansa", "SWISS", "British Airways",
   "Air France", "KLM", "Emirates", "Qatar", "Singapore Airlines",
   "Japan Airlines", "ANA", "Alaska", "JetBlue", "Southwest"]

/-- The airline alternation of `_extract_flights_from_text` (lines 296-301). -/
def airline_names_text : List String :=
  ["United Airlines", "Delta", "American Airlines", "Lufthansa", "SWISS",
   "British Airways", "Air France", "KLM", "Emirates", "Qatar Airways",
   "Singapore Airlines", "Japan Airlines", "ANA", "Alaska Airlines",
   "JetBlue", "Southwest", "Virgin Atlantic", "Turkish Airlines"]

/-- Case-insensitive leftmost search of an airline alternation; the result is
the matched slice of the original text (`group(1)`), preferring the earlier
alternative at equal positions. -/
def findAirlineGo (names : List String) : List Char → Option String
  | [] => none
  | c :: cs =>
    match names.find? (fun n => beginsWith (strLower n).data ((c :: cs).map lowerChar)) with
    | some n => some ⟨(c :: cs).take n.length⟩
    | none => findAirlineGo names cs

/-- `re.split(r'\n\n|\n(?=[A-Z])', text)`: split at a blank line (consuming
both newlines, the preferred alternative) or before a newline followed by an
ASCII uppercase letter (consuming only the newline); `cur` holds the current
paragraph reversed. -/
def splitParasGo (cur : List Char) : List Char → List (List Char)
  | [] => [cur.reverse]
  | '\n' :: '\n' :: rest => cur.reverse :: splitParasGo [] rest
  | '\n' :: c :: rest =>
    if 'A' ≤ c && c ≤ 'Z' then cur.reverse :: splitParasGo [] (c :: rest)
    else splitParasGo (c :: '\n' :: cur) rest
  | c :: rest => splitParasGo (c :: cur) rest

def splitParagraphs (text : String) : List String :=
  (splitParasGo [] text.data).map (fun l => (⟨l⟩ : String))

/-- One paragraph of `_extract_flights_from_text` (lines 310-349): with a
flight keyword present and a positive `$`-price match, one record is
appended; the provider is the matched airline slice or `"Unknown Airline"`;
ids carry the paragraph index.  The provider and duration are computed
before the price test in the source, but carry no effects. -/
def text_flight_record (origin destination : String) (travelers : ℕ) (idx : ℕ)
    (para : String) : List Transportation :=
  let pl := strLower para
  if anyKw pl ["flight", "airline", "fly", "airport"] then
    let price := (dollarPriceTok para.data).getD 0
    if 0 < price then
      [{ id := "flight_text_" ++ toString idx, type := "flight",
         origin := origin, destination := destination,
         durationMinutes := findDurationGo [] pl.data,
         price := price, pricePerPerson := some (price / (travelers : ℚ)),
         provider := (findAirlineGo airline_names_text para.data).getD "Unknown Airline",
         carbonEmissionsKg := some 250, recommended := false,
         recommendationReason := none }]
    else []
  else []

def text_paras_flights (origin destination : String) (travelers : ℕ) :
    ℕ → List String → List Transportation
  | _, [] => []
  | idx, p :: ps =>
    text_flight_record origin destination travelers idx p
      ++ text_paras_flights origin destination travelers (idx + 1) ps

/-- FlightSearchAgent._extract_flights_from_text (lines 285-351). -/
def extract_flights_from_text (text origin destination : String)
    (travelers : ℕ) : List Transportation :=
  text_paras_flights origin destination travelers 0 ((splitParagraphs text).take 5)

/-- FlightSearchAgent._create_flight_from_dict (lines 174-283) on a dict
record (the caller's `isinstance` guard keeps non-dicts out), with the
idx-dependent id left to the caller.  `none` is the
`except (KeyError, ValueError, TypeError)` path, which is also where a failed
pydantic coercion of a forwarded field lands (pydantic's ValidationError
subclasses ValueError); validated-but-unread fields (`transfers`,
`comfort_level`, `amenities`, `booking_url`, `details`) are bound and
discarded.  Datetime parsing sits in its own bare `except` and cannot drop a
record. -/
def create_flight_core (origin destination : String) (travelers : ℕ)
    (kvs : List (String × Json)) : Option Transportation := do
  let price_str := pyStr (jGetD kvs "price" (jGetD kvs "total_price" (jGetD kvs "cost" (.str "0"))))
  let price :=
    match jsonPriceTok price_str.data with
    | some p => p
    | none => (parseFloatStr price_str).getD 0
  let ppp : Option ℚ :=
    match jLookup kvs "price_per_person" with
    | none => if 0 < price then some (price / (travelers : ℚ)) else none
    | some .null => if 0 < price then some (price / (travelers : ℚ)) else none
    | some v =>
      match jsonPriceTok (pyStr v).data with
      | some p => some p
      | none =>
        match pyFloat v with
        | some p => some p
        | none => if 0 < price then some (price / (travelers : ℚ)) else none
  let dmo ←
    match jLookup kvs "duration_minutes" with
    | some v => (pyInt v).map some
    | none =>
      match jLookup kvs "duration_hours" with
      | some v => (pyFloat v).map (fun q => some (Int.tdiv (q * 60).num ((q * 60).den : ℤ)))
      | none =>
        match jLookup kvs "duration" with
        | some v =>
          some (some ((((findNumBeforeGo 'h' [] (pyStr v).data).getD 0) * 60
            + ((findNumBeforeGo 'm' [] (pyStr v).data).getD 0) : ℕ) : ℤ))
        | none => some (none : Option ℤ)
  let provRaw := jGetD kvs "airline" (jGetD kvs "provider" (jGetD kvs "carrier" (jGetD kvs "airline_name" (.str ""))))
  let provRaw2 :=
    if !pyTruthy provRaw || isEmptyStrJson provRaw then
      match findAirlineGo airline_names_dict
          (pyStr (jGetD kvs "description" (jGetD kvs "details" (.str "")))).data with
      | some name => Json.str name
      | none => provRaw
    else provRaw
  let provRaw3 :=
    if !pyTruthy provRaw2 || isEmptyStrJson provRaw2 then Json.str "Unknown Airline"
    else provRaw2
  let provider := strStrip
    (match provRaw3 with
     | .arr xs => joinStrs ", " ((xs.filter pyTruthy).map pyStr)
     | v => pyStr v)
  let carbon : Option ℚ :=
    match dmo with
    | some d =>
      if d = 0 then none
      else some (pyRound2 ((800 * (d : ℚ)) / 60 * (25 / 100) * (travelers : ℚ)))
    | none => none
  let o ← asString (jGetD kvs "origin" (.str origin))
  let dst ← asString (jGetD kvs "destination" (.str destination))
  let _transfers ← asOptInt (jGetD kvs "stops" (jGetD kvs "transfers" (.num 0)))
  let _comfort ← asOptString (jGetD kvs "class" (jGetD kvs "comfort_level" (.str "economy")))
  let _amen ← asStringList (jGetD kvs "amenities" (.arr [.str "Meals", .str "Entertainment"]))
  let _burl ← asOptString (jGetD kvs "booking_url" (jGetD kvs "url" (jGetD kvs "link" .null)))
  let _details ←
    match jGetD kvs "details" (.obj []) with
    | .obj _ => some ()
    | _ => (none : Option Unit)
  pure { id := "", type := "flight", origin := o, destination := dst,
         durationMinutes := dmo, price := price, pricePerPerson := ppp,
         provider := provider, carbonEmissionsKg := carbon,
         recommended := false, recommendationReason := none }

/-- The record loop (lines 145-151): construct each dict record, keep those
with positive price; non-dicts are skipped but advance the enumeration
index. -/
def collectFlights (origin destination : String) (travelers : ℕ) :
    ℕ → List Json → List Transportation
  | _, [] => []
  | idx, it :: rest =>
    match it with
    | .obj kvs =>
      match create_flight_core origin destination travelers kvs with
      | some f =>
        if 0 < f.price then
          { f with id := "flight_" ++ toString idx ++ "_0" }
            :: collectFlights origin destination travelers (idx + 1) rest
        else collectFlights origin destination travelers (idx + 1) rest
      | none => collectFlights origin destination travelers (idx + 1) rest
    | _ => collectFlights origin destination travelers (idx + 1) rest

/-- Fenced-block extraction with the `json_end > json_start` guard
(lines 106-114; unlike the stay agent, a fence with no closer yields no
slice here). -/
def extract_fenced_json_checked (output : String) : Option String :=
  match strFindIdx output "```json" with
  | none => none
  | some i =>
    let tail := output.data.drop (i + 7)
    match findSubIdx "```".data tail 0 with
    | some k => if 0 < k then some (strStrip ⟨tail.take k⟩) else none
    | none => none

/-- Phase one of method 2's regex `\{[^{}]*"flights"[^{}]*\[.*?\]`: brace-free
characters up to the literal `"flights"`. -/
def m2After : List Char → ℕ → Option (ℕ × List Char)
  | [], _ => none
  | c :: rest, n =>
    if beginsWith "\"flights\"".data (c :: rest) then some (n + 9, (c :: rest).drop 9)
    else if c == '\x7b' || c == '\x7d' then none
    else m2After rest (n + 1)

/-- Phase two: brace-free characters up to a `[`. -/
def m2Bracket : List Char → ℕ → Option (ℕ × List Char)
  | '[' :: rest, n => some (n + 1, rest)
  | c :: rest, n =>
    if c == '\x7b' || c == '\x7d' then none else m2Bracket rest (n + 1)
  | [], _ => none

/-- Phase three: lazily anything (DOTALL) up to the first `]`. -/
def m2Close : List Char → ℕ → Option ℕ
  | ']' :: _, n => some (n + 1)
  | _ :: rest, n => m2Close rest (n + 1)
  | [], _ => none

/-- Leftmost match of method 2's regex.  Backtracking order among several
viable `"flights"` occurrences inside one brace-free run is modelled as
first-occurrence; this method only runs when no tagged fence parsed, and no
claim depends on the slice it picks. -/
def method2Slice : List Char → Option (List Char)
  | [] => none
  | '\x7b' :: rest =>
    (match m2After rest 0 with
     | some (n1, r1) =>
       match m2Bracket r1 0 with
       | some (n2, r2) =>
         match m2Close r2 0 with
         | some n3 => some ('\x7b' :: rest.take (n1 + n2 + n3))
         | none => method2Slice rest
       | none => method2Slice rest
     | none => method2Slice rest)
  | _ :: rest => method2Slice rest

/-- `json.loads` returning `None` (input `null`) is indistinguishable from a
decode failure in the source's `if json_data is None` method chain. -/
def notNull : Option Json → Option Json
  | some .null => none
  | r => r

/-- Methods 1-3 of `_parse_flight_results` (lines 103-131): the guarded
fence, the `"flights"` regex slice, then the whole output. -/
def decode_flight_json (output : String) : Option Json :=
  match (match extract_fenced_json_checked output with
         | some s => notNull (jsonParse s)
         | none => none) with
  | some j => some j
  | none =>
    match (match method2Slice output.data with
           | some cs => notNull (jsonParse (⟨cs⟩ : String))
           | none => none) with
    | some j => some j
    | none => notNull (jsonParse output)

/-- The flight-list extraction (lines 136-143): a bare list is itself; a
dict's `"flights"`/`"results"`/`"options"` chain, with a lone dict wrapped in
a list; any other value yields no records (iterating a string visits
non-dict characters; slicing a number raises `TypeError`, which this block's
`except` catches). -/
def flight_container : Json → List Json
  | .arr xs => xs
  | .obj kvs =>
    match jGetD kvs "flights" (jGetD kvs "results" (jGetD kvs "options" (.arr []))) with
    | .arr xs => xs
    | .obj kvs2 => [.obj kvs2]
    | _ => []
  | _ => []

/-- `if json_data:` truthiness plus the record loop over the first five
container items (lines 134-153). -/
def flights_from_json (origin destination : String) (travelers : ℕ) :
    Option Json → List Transportation
  | some j =>
    if pyTruthy j then
      collectFlights origin destination travelers 0 ((flight_container j).take 5)
    else []
  | none => []

/-- The text-fallback gate (lines 156-157): the text scan replaces an empty
JSON harvest. -/
def flight_base (textFlights jsonFlights : List Transportation) :
    List Transportation :=
  if jsonFlights.isEmpty then textFlights else jsonFlights

/-- The top-up loop (lines 165-170): append text-extracted flights with new
positive prices, stopping at the five-flight cap. -/
def addLoop (flights : List Transportation) (prices : List ℚ) :
    List Transportation → List Transportation
  | [] => flights
  | f :: fs =>
    if 0 < f.price ∧ f.price ∉ prices then
      if 5 ≤ flights.length + 1 then flights ++ [f]
      else addLoop (flights ++ [f]) (f.price :: prices) fs
    else addLoop flights prices fs

/-- The top-up gate (lines 161-170): while fewer than five flights, append
text-extracted flights whose price is positive and new. -/
def flight_topup (textFlights flights1 : List Transportation) :
    List Transportation :=
  if flights1.length < 5 then
    addLoop flights1
      ((flights1.filter (fun f => decide (0 < f.price))).map (fun f => f.price))
      textFlights
  else flights1

/-- FlightSearchAgent._parse_flight_results (lines 92-172): decode JSON by
three methods, keep positive-price dict records from the first five container
items, fall back to the text scan when none survive, then top the list up
from the same text scan while fewer than five flights remain, deduplicating
by price. -/
def parse_flight_results (output origin destination : String)
    (travelers : ℕ) : List Transportation :=
  (flight_topup (extract_flights_from_text output origin destination travelers)
    (flight_base (extract_flights_from_text output origin destination travelers)
      (flights_from_json origin destination travelers
        (decode_flight_json output)))).take 5

/-- `true` exactly when a flight record is constructed with positive price. -/
def flightOkPos : Option Transportation → Bool
  | some f => decide (0 < f.price)
  | none => false

/-! ## Planner itinerary assembly (PlannerAgent._parse_itinerary)

Transcription of `planner_agent.py` lines 293-404.  Dates are day numbers
(`ℤ`); the optional per-day ISO-date override is silently ignored on failure
in the source and is modelled as keeping the computed date (no claim reads
dates). -/

structure DayItin where
  day : ℤ
  date : ℤ
  activities : List Json
  meals : List Json
  notes : String

def isObj : Json → Bool
  | .obj _ => true
  | _ => false

/-- Python `activities if isinstance(activities, list) else []`, followed by
pydantic validation `List[Dict[str, Any]]` (a non-dict element raises
`ValidationError`, a subclass of `ValueError`, which is caught — the day is
dropped). -/
def dayActivities (v : Json) : Option (List Json) :=
  match v with
  | .arr xs => if xs.all isObj then some xs else none
  | _ => some []

/-- PlannerAgent._create_day_itinerary (`planner_agent.py` lines 353-386). -/
def create_day_itinerary (startDate : ℤ) (duration : ℕ) (j : Json) :
    Except PyErr (Option DayItin) :=
  match j with
  | .obj kvs =>
    let comp : Option DayItin := do
      let dayNum ← pyInt (jGetD kvs "day" (.num 1))
      if dayNum < 1 ∨ (duration : ℤ) < dayNum then none
      else do
        let acts ← dayActivities (jGetD kvs "activities" (.arr []))
        let meals ← dayActivities (jGetD kvs "meals" (.arr []))
        let notes ←
          match jGetD kvs "notes" (.str "") with
          | .str s => some s
          | .null => some ""
          | _ => none
        pure { day := dayNum, date := startDate + dayNum - 1, activities := acts,
               meals := meals, notes := notes }
    .ok comp
  | _ => .error .attributeError

/-- Day loop of `_parse_itinerary`. -/
def collectDays (startDate : ℤ) (duration : ℕ) : List Json → Except PyErr (List DayItin)
  | [] => .ok []
  | it :: rest =>
    match create_day_itinerary startDate duration it with
    | .error e => .error e
    | .ok none => collectDays startDate duration rest
    | .ok (some d) =>
      match collectDays startDate duration rest with
      | .error e => .error e
      | .ok l => .ok (d :: l)

/-- PlannerAgent._create_fallback_itinerary (lines 388-404). -/
def create_fallback_itinerary (startDate : ℤ) (duration : ℕ) : List DayItin :=
  (List.range duration).map
    (fun (k : ℕ) =>
      { day := (k : ℤ) + 1, date := startDate + (k : ℤ), activities := [],
        meals := [], notes := "Itinerary details to be generated" })

/-- The `while len(itinerary) < duration` padding loop plus the final
`[:duration]` truncation (lines 339-351). -/
def padItinerary (startDate : ℤ) (duration : ℕ) (l : List DayItin) : List DayItin :=
  (l ++ (List.range (duration - l.length)).map
    (fun (k : ℕ) =>
      ({ day := (l.length : ℤ) + (k : ℤ) + 1,
         date := startDate + (l.length : ℤ) + (k : ℤ),
         activities := [], meals := [],
         notes := "Activities to be planned" } : DayItin))).take duration

/-- The JSON-decoding chain of `_parse_itinerary` (lines 302-324): tagged
fence, then any fence with an optional `json` tag, then the whole stripped
output. -/
def decodeItinerary (output : String) : Option Json :=
  if (strFindIdx output "```json").isSome then
    match extract_fenced_json output with
    | some s => jsonParse s
    | none => none
  else
    match strFindIdx output "```" with
    | some i =>
      let tail := output.data.drop (i + 3)
      match findSubIdx "```".data tail 0 with
      | some k =>
        if 0 < k then
          let s := strStrip ⟨tail.take k⟩
          let s' := if beginsWith "json".data s.data then strStrip ⟨s.data.drop 4⟩ else s
          jsonParse s'
        else jsonParse (strStrip output)
      | none => jsonParse (strStrip output)
    | none => jsonParse (strStrip output)

/-- The decode-and-walk part of `PlannerAgent._parse_itinerary` (lines
302-337): decode, walk the `"itinerary"` list, fall back to the generated
fallback itinerary on decode failure. -/
def parse_itinerary_base (output : String) (startDate : ℤ) (duration : ℕ) :
    Except PyErr (List DayItin) :=
  match decodeItinerary output with
  | none => .ok (create_fallback_itinerary startDate duration)
  | some j =>
    match j with
    | .obj kvs =>
      match jLookup kvs "itinerary" with
      | some (.arr days) => collectDays startDate duration days
      | some (.str st) => if st.data.isEmpty then .ok [] else .error .attributeError
      | some (.obj k2) => if k2.isEmpty then .ok [] else .error .attributeError
      | some _ => .error .typeError
      | none => .ok []
    | _ => .ok []

/-- PlannerAgent._parse_itinerary (`planner_agent.py` lines 293-351): the
decode-and-walk step, then pad/truncate to exactly `duration` entries. -/
def parse_itinerary (output : String) (startDate : ℤ) (duration : ℕ) :
    Except PyErr (List DayItin) :=
  match parse_itinerary_base output startDate duration with
  | .error e => .error e
  | .ok l => .ok (padItinerary startDate duration l)

/-! ## Pipeline coordinator (TripOrchestrator)

Model of `_parallel_agents_node` (`orchestrator.py` lines 103-169) and the
sequential stage graph of `plan_trip`.  `asyncio.gather(...,
return_exceptions=True)` returns a *bare exception* for a coroutine that
raised (the `("name", result)` tuple is only produced on success), so the
loop's `isinstance(result_tuple, Exception)` arm hits `continue` and emits no
key for the failed branch; the `isinstance(result, Exception)` arm that would
emit an empty stage result is unreachable.  LangGraph merges a node's output
dict into the state, leaving absent keys at their previous value. -/

inductive GatherItem (α : Type) where
  | exc (e : String)
  | tup (r : Except String α)

/-- asyncio.gather with `return_exceptions=True` on one branch coroutine. -/
def branchToItem {α : Type} : Except String α → GatherItem α
  | .ok v => .tup (.ok v)
  | .error e => .exc e

/-- The result-processing loop body of `_parallel_agents_node` for one agent
(`orchestrator.py` lines 144-167): `none` means no key in the output dict. -/
def processGatherItem {α : Type} (emptyResult : α) : GatherItem α → Option α
  | .exc _ => none
  | .tup (.error _) => some emptyResult
  | .tup (.ok v) => some v

structure ParallelOutput where
  restaurant_results : Option RestaurantResults
  travel_results : Option TravelResults
  experience_results : Option ExperienceResults

/-- TripOrchestrator._parallel_agents_node over the three branch outcomes. -/
def parallel_agents_node (br : Except String RestaurantResults)
    (bt : Except String TravelResults) (be : Except String ExperienceResults) :
    ParallelOutput :=
  { restaurant_results := processGatherItem ⟨[]⟩ (branchToItem br)
    travel_results := processGatherItem ⟨[]⟩ (branchToItem bt)
    experience_results := processGatherItem ⟨[]⟩ (branchToItem be) }

structure PipelineState where
  stay_results : Option StayResults
  restaurant_results : Option RestaurantResults
  travel_results : Option TravelResults
  experience_results : Option ExperienceResults
  budget_results : Option BudgetBreakdown

/-- LangGraph state merge for the fan-out node's output. -/
def applyParallel (st : PipelineState) (out : ParallelOutput) : PipelineState :=
  { st with
    restaurant_results :=
      match out.restaurant_results with
      | some r => some r
      | none => st.restaurant_results
    travel_results :=
      match out.travel_results with
      | some t => some t
      | none => st.travel_results
    experience_results :=
      match out.experience_results with
      | some e => some e
      | none => st.experience_results }

structure TripPlanM where
  accommodations : List PyAccommodation
  selected_accommodation : Option PyAccommodation
  restaurants : List PyRestaurant
  transportation : List Transportation
  experiences : List PyExperience
  itinerary : List DayItin
  budget : BudgetBreakdown

/-- PlannerAgent._get_selected_accommodation (`planner_agent.py` lines
136-150). -/
def get_selected_accommodation (req : TripRequestM) (stay : Option StayResults) :
    Option PyAccommodation :=
  match stay with
  | none => none
  | some s =>
    match req.selected_accommodation_id with
    | none => s.accommodations.head?
    | some sid =>
      if sid = "" then s.accommodations.head?
      else
        match s.accommodations.find? (fun a => a.id = sid) with
        | some a => some a
        | none => s.accommodations.head?

/-- PlannerAgent.process (`planner_agent.py` lines 47-134): assemble the
TripPlan from the stage results, the generation output for the itinerary
(`genOutput`), and the budget stage result (used unchanged when present,
otherwise the fallback budget). -/
def planner_process (req : TripRequestM) (stay : Option StayResults)
    (restR : Option RestaurantResults) (travel : Option TravelResults)
    (expR : Option ExperienceResults) (budgetR : Option BudgetBreakdown)
    (startDate : ℤ) (genOutput : String) : Except PyErr TripPlanM :=
  match parse_itinerary genOutput startDate (pyOrNat req.duration_days 5) with
  | .error e => .error e
  | .ok itin =>
    .ok { accommodations := match stay with | some s => s.accommodations | none => []
          selected_accommodation := get_selected_accommodation req stay
          restaurants := match restR with | some r => r.restaurants | none => []
          transportation := match travel with | some t => t.transportation | none => []
          experiences := match expR with | some e => e.experiences | none => []
          itinerary := itin
          budget :=
            match budgetR with
            | some b => b
            | none =>
              calculate_budget_fallback (get_selected_accommodation req stay)
                (match restR with | some r => r.restaurants | none => [])
                (pyOrNat req.duration_days 5) req.travelers }

/-- TripOrchestrator.plan_trip (`orchestrator.py`): lodging, fan-out, budget,
planner, in the fixed stage order.  Branch outcomes and the planner's
generation text are inputs. -/
def run_pipeline (req : TripRequestM) (stay : StayResults)
    (br : Except String RestaurantResults) (bt : Except String TravelResults)
    (be : Except String ExperienceResults) (plannerOutput : String)
    (startDate : ℤ) : Except PyErr TripPlanM :=
  let st0 : PipelineState := ⟨none, none, none, none, none⟩
  let st1 := { st0 with stay_results := some stay }
  let st2 := applyParallel st1 (parallel_agents_node br bt be)
  let budget := budget_process req st2.stay_results st2.travel_results
    st2.experience_results st2.restaurant_results
  let st3 := { st2 with budget_results := some budget }
  planner_process req st3.stay_results st3.restaurant_results st3.travel_results
    st3.experience_results st3.budget_results startDate plannerOutput

/-! ## Follow-up modification engine and version persistence

Transcription of `FollowUpHandler.handle_follow_up` / `_handle_modification`
(`follow_up_handler.py` lines 48-186) and the persistence decision of
`ItineraryService.handle_follow_up` plus
`_save_itinerary_with_modifier` (`itinerary_service.py` lines 412-516).
The would-be results of re-invoking each stage agent are inputs
(`StageReruns`); the version store is a list of saved versions. -/

structure FollowUpResult where
  type : String
  itinerary : Option TripPlanM
  answer : Option String
  message : String

structure StageReruns where
  newStay : StayResults
  newRestaurant : RestaurantResults
  newTravel : TravelResults
  newExperience : ExperienceResults

def could_not_message : String :=
  "⚠️  I couldn't make that change. Could you be more specific? (e.g., 'add more restaurants' or 'find cheaper flights')"

/-- FollowUpHandler._handle_modification (`follow_up_handler.py` lines
96-173). -/
def handle_modification (prompt : String) (category action : String)
    (plan : TripPlanM) (reruns : StageReruns) (req : TripRequestM)
    (startDate : ℤ) (plannerOutput : String) : Except PyErr FollowUpResult :=
  let stay0 : StayResults := ⟨plan.accommodations⟩
  let rest0 : RestaurantResults := ⟨plan.restaurants⟩
  let travel0 : TravelResults := ⟨plan.transportation⟩
  let exp0 : ExperienceResults := ⟨plan.experiences⟩
  let actOk := action = "add" ∨ action = "change" ∨ action = "find"
  let merged :
      StayResults × RestaurantResults × TravelResults × ExperienceResults × Bool :=
    if category = "accommodation" then
      if actOk ∧ ¬reruns.newStay.accommodations.isEmpty then
        (reruns.newStay, rest0, travel0, exp0, true)
      else (stay0, rest0, travel0, exp0, false)
    else if category = "restaurant" then
      if actOk ∧ ¬reruns.newRestaurant.restaurants.isEmpty then
        (stay0, reruns.newRestaurant, travel0, exp0, true)
      else (stay0, rest0, travel0, exp0, false)
    else if category = "transportation" then
      if actOk ∧ ¬reruns.newTravel.transportation.isEmpty then
        (stay0, rest0, reruns.newTravel, exp0, true)
      else (stay0, rest0, travel0, exp0, false)
    else if category = "experience" then
      if actOk ∧ ¬reruns.newExperience.experiences.isEmpty then
        (stay0, rest0, travel0, reruns.newExperience, true)
      else (stay0, rest0, travel0, exp0, false)
    else (stay0, rest0, travel0, exp0, false)
  if merged.2.2.2.2 then
    match planner_process req (some merged.1) (some merged.2.1) (some merged.2.2.1)
        (some merged.2.2.2.1) (some plan.budget) startDate plannerOutput with
    | .error e => .error e
    | .ok updated =>
      .ok { type := "modification", itinerary := some updated, answer := none,
            message := "✅ I've updated your itinerary based on your request: " ++ prompt }
  else
    .ok { type := "modification", itinerary := some plan, answer := none,
          message := could_not_message }

/-- FollowUpHandler._handle_chat (`follow_up_handler.py` lines 175-186). -/
def handle_chat (prompt : String) : String :=
  let pl := strLower prompt
  if anyKw pl ["thanks", "thank you", "thank"] then
    "You're welcome! Happy to help with your trip planning. Is there anything else you'd like to know or change?"
  else if anyKw pl ["hello", "hi", "hey"] then
    "Hello! I'm here to help you with your trip. You can ask me questions about your itinerary or request changes."
  else if anyKw pl ["yes", "ok", "okay", "sure"] then
    "Great! What would you like to do? You can ask questions about your itinerary or request modifications."
  else
    "I'm here to help with your trip! You can ask me questions about your itinerary or request changes. What would you like to know or modify?"

/-- FollowUpHandler.handle_follow_up (`follow_up_handler.py` lines 48-94). -/
def handle_follow_up (prompt : String) (plan : TripPlanM) (reruns : StageReruns)
    (req : TripRequestM) (startDate : ℤ) (plannerOutput : String)
    (qaAnswer : String) : Except PyErr FollowUpResult :=
  let intent := classify prompt
  if intent.intent = "modify" then
    handle_modification prompt intent.category intent.action plan reruns req
      startDate plannerOutput
  else if intent.intent = "query" then
    .ok { type := "query", itinerary := none, answer := some qaAnswer,
          message := "Here's the information you requested:" }
  else
    .ok { type := "chat", itinerary := none, answer := some (handle_chat prompt),
          message := "" }

structure SavedVersion where
  version : ℤ
  modified_by : String
  plan : TripPlanM

/-- `SELECT MAX(version_number) ... or 0` over the stored versions. -/
def max_version (hist : List SavedVersion) : ℤ :=
  hist.foldl (fun m v => max m v.version) 0

/-- ItineraryService._save_itinerary_with_modifier (`itinerary_service.py`
lines 458-516): read max, increment, append. -/
def save_itinerary_with_modifier (hist : List SavedVersion) (plan : TripPlanM)
    (modifier : String) : List SavedVersion :=
  hist ++ [{ version := max_version hist + 1, modified_by := modifier, plan := plan }]

/-- The persistence decision in `ItineraryService.handle_follow_up` (lines
443-454): save whenever the result's type is `"modification"` and its
itinerary is truthy (a `TripPlan` object is always truthy). -/
def service_persist (hist : List SavedVersion) (r : FollowUpResult)
    (modifier : String) : List SavedVersion :=
  if r.type = "modification" then
    match r.itinerary with
    | some p => save_itinerary_with_modifier hist p modifier
    | none => hist
  else hist

/-- ItineraryService.handle_follow_up (lines 412-456): run the follow-up
handler, then persist according to the result. -/
def service_handle_follow_up (hist : List SavedVersion) (prompt : String)
    (plan : TripPlanM) (reruns : StageReruns) (req : TripRequestM)
    (startDate : ℤ) (plannerOutput : String) (qaAnswer : String)
    (modifier : String) : Except PyErr (List SavedVersion × FollowUpResult) :=
  match handle_follow_up prompt plan reruns req startDate plannerOutput qaAnswer with
  | .error e => .error e
  | .ok r => .ok (service_persist hist r modifier, r)

/-! ## Concrete inputs used by counterexamples and witnesses -/

/-- A predicate evaluated under an `Except`: holds only for `ok` values. -/
def exceptCheck {ε α : Type} (p : α → Prop) : Except ε α → Prop
  | .ok a => p a
  | .error _ => False

def cBus : Transportation :=
  ⟨"b1", "bus", "a", "b", some 300, 40, none, "Z", some 20, false, none⟩

def cFlightA : Transportation :=
  ⟨"f1", "flight", "a", "b", some 120, 200, none, "X", some 100, false, none⟩

def cFlightB : Transportation :=
  ⟨"f2", "flight", "a", "b", some 100, 150, none, "Y", some 120, false, none⟩

def cZeroPrice : Transportation :=
  ⟨"t0", "train", "a", "b", some 100, 0, none, "Y", none, false, none⟩

def c9Acc : PyAccommodation :=
  { id := "a", title := "t", description := "", lat := 0, lng := 0,
    address := "", price_per_night := 0, total_price := 3334 / 1000,
    amenities := [], rating := none, review_count := none, images := [],
    booking_url := none, source := "airbnb" }

def c9Req : TripRequestM := ⟨"p", some 1, 1, none⟩

/-- The budget stage's output on one accommodation costing 3.334 and one
restaurant averaging 1.54 per person (one traveler, one day). -/
def c9Budget : BudgetBreakdown :=
  budget_process c9Req (some ⟨[c9Acc]⟩) none none (some ⟨[⟨some (154 / 100), "$$"⟩]⟩)

/-- `true` exactly for `ok (some _)` results. -/
def isOkSome {ε β : Type} : Except ε (Option β) → Bool
  | .ok (some _) => true
  | _ => false

/-- `true` exactly for `ok` results. -/
def exceptIsOk {ε α : Type} : Except ε α → Bool
  | .ok _ => true
  | .error _ => false

/-- A generation output whose fenced JSON list holds a non-dict record: the
record constructor's `data.get` raises `AttributeError`. -/
def c5Input : String := "```json\n[\"hello\"]\n```"

/-- A well-formed fenced block whose container holds zero records. -/
def c6EmptyInput : String := "```json\n\x7b\"accommodations\": []\x7d\n```"

def c6Item1 : Json :=
  .obj [("id", .str "h1"), ("title", .str "Hotel One"), ("price_per_night", .num 100)]

def c6Item2 : Json :=
  .obj [("id", .str "h2"), ("title", .str "Hotel Two"), ("price_per_night", .num 90)]

def c6TwoInner : String :=
  "\x7b\"accommodations\": [\x7b\"id\": \"h1\", \"title\": \"Hotel One\", \"price_per_night\": 100\x7d, \x7b\"id\": \"h2\", \"title\": \"Hotel Two\", \"price_per_night\": 90\x7d]\x7d"

/-- A well-formed fenced block whose container holds two valid records. -/
def c6TwoInput : String := "```json\n" ++ c6TwoInner ++ "\n```"

def c6FlightKvs : List (String × Json) :=
  [("airline", .str "Delta"), ("price", .num 300)]

def c6FlightItem : Json := .obj c6FlightKvs

def c6FlightInner : String :=
  "\x7b\"flights\": [\x7b\"airline\": \"Delta\", \"price\": 300\x7d]\x7d"

/-- A fenced block holding one valid flight record, followed by a prose
paragraph that the text scan also turns into a record. -/
def c6FlightInput : String :=
  "```json\n" ++ c6FlightInner ++ "\n```\n\nDelta flight for $99 one way."

def c6FKvsB : List (String × Json) :=
  [("airline", .str "KLM"), ("price", .num 500)]

def c6FItemB : Json := .obj c6FKvsB

def c6FlightTwoInner : String :=
  "\x7b\"flights\": [\x7b\"airline\": \"Delta\", \"price\": 300\x7d, \x7b\"airline\": \"KLM\", \"price\": 500\x7d]\x7d"

/-- A fenced block holding two valid flight records and no text-extractable
price (the single paragraph has no dollar sign). -/
def c6FlightTwoInput : String := "```json\n" ++ c6FlightTwoInner ++ "\n```"

def cStay2 : StayResults := ⟨[c9Acc]⟩

def cRest2 : RestaurantResults := ⟨[⟨some 20, "$$"⟩]⟩

def cExp2 : ExperienceResults := ⟨[⟨some 5⟩]⟩

def c2Req : TripRequestM := ⟨"p", some 4, 2, none⟩

def c3Plan : TripPlanM :=
  { accommodations := [], selected_accommodation := none, restaurants := [],
    transportation := [cFlightA], experiences := [], itinerary := [],
    budget := ⟨0, 0, 0, 0, 0, 0, "USD"⟩ }

def c3Reruns : StageReruns := ⟨⟨[]⟩, ⟨[]⟩, ⟨[]⟩, ⟨[]⟩⟩

def c3V1 : SavedVersion := ⟨1, "owner", c3Plan⟩

end TripMind

namespace TripMind

/-! ## Helper lemmas -/

theorem foldMax_mem (xs : List ℚ) (x : ℚ) : foldMax x xs ∈ x :: xs := by
  induction xs generalizing x with
  | nil => simp [foldMax]
  | cons y ys ih =>
    have h := ih (max x y)
    simp only [foldMax, List.foldl_cons]
    rcases List.mem_cons.mp h with h1 | h1
    · have h1' : List.foldl max (max x y) ys = max x y := h1
      rw [h1']
      rcases max_choice x y with hm | hm <;> rw [hm]
      · exact List.mem_cons_self _ _
      · exact List.mem_cons_of_mem _ (List.mem_cons_self _ _)
    · exact List.mem_cons_of_mem _ (List.mem_cons_of_mem _ h1)

theorem le_foldMax_self (xs : List ℚ) (x : ℚ) : x ≤ foldMax x xs := by
  induction xs generalizing x with
  | nil => simp [foldMax]
  | cons y ys ih =>
    simp only [foldMax, List.foldl_cons]
    exact le_trans (le_max_left x y) (ih (max x y))

theorem le_foldMax_of_mem {a : ℚ} (xs : List ℚ) (x : ℚ) (h : a ∈ xs) :
    a ≤ foldMax x xs := by
  induction xs generalizing x with
  | nil => simp at h
  | cons y ys ih =>
    simp only [foldMax, List.foldl_cons]
    rcases List.mem_cons.mp h with h1 | h1
    · rw [h1]
      exact le_trans (le_max_right x y) (le_foldMax_self ys (max x y))
    · exact ih (max x y) h1

theorem get?_idxOfQ {m : ℚ} {l : List ℚ} (h : m ∈ l) :
    l.get? (idxOfQ m l) = some m := by
  induction l with
  | nil => simp at h
  | cons x xs ih =>
    by_cases hx : x = m
    · have : idxOfQ m (x :: xs) = 0 := by simp [idxOfQ, hx]
      rw [this, List.get?_cons_zero, hx]
    · have hm : m ∈ xs := by
        rcases List.mem_cons.mp h with h1 | h1
        · exact absurd h1.symm hx
        · exact h1
      have : idxOfQ m (x :: xs) = idxOfQ m xs + 1 := by simp [idxOfQ, hx]
      rw [this, List.get?_cons_succ]
      exact ih hm

theorem firstArgmax_spec {l : List ℚ} {i : Nat} (h : firstArgmax l = some i) :
    ∃ m, l.get? i = some m ∧ ∀ a ∈ l, a ≤ m := by
  cases l with
  | nil => simp [firstArgmax] at h
  | cons x xs =>
    simp only [firstArgmax, Option.some.injEq] at h
    subst h
    refine ⟨foldMax x xs, get?_idxOfQ (foldMax_mem xs x), ?_⟩
    intro a ha
    rcases List.mem_cons.mp ha with h1 | h1
    · rw [h1]; exact le_foldMax_self xs x
    · exact le_foldMax_of_mem xs x h1

theorem firstArgmax_eq_none {l : List ℚ} (h : firstArgmax l = none) : l = [] := by
  cases l with
  | nil => rfl
  | cons x xs => simp [firstArgmax] at h

theorem countP_set_eq_one {α : Type} (p : α → Bool) (l : List α) (i : Nat) (a : α)
    (h : ∀ x ∈ l, p x = false) (hi : i < l.length) (ha : p a = true) :
    (l.set i a).countP p = 1 := by
  induction l generalizing i with
  | nil => simp at hi
  | cons b bs ih =>
    cases i with
    | zero =>
      have hz : bs.countP p = 0 :=
        List.countP_eq_zero.mpr (fun x hx => by
          simp [h x (List.mem_cons_of_mem _ hx)])
      simp [List.set, List.countP_cons, hz, ha]
    | succ j =>
      have hb : p b = false := h b (List.mem_cons_self _ _)
      have hj : j < bs.length := by simpa using hi
      have := ih j (fun x hx => h x (List.mem_cons_of_mem _ hx)) hj
      simp [List.set, List.countP_cons, hb, this]

theorem mem_mark_recommendations {o : Transportation}
    (flights trains : List Transportation) (priority : String)
    (h : o ∈ mark_recommendations flights trains priority) :
    o ∈ flights ++ trains ∨ ∃ o', o = markT priority o' := by
  cases hfa : firstArgmax ((flights ++ trains).map (fun o => calculate_score o priority)) with
  | none =>
    simp only [mark_recommendations, hfa] at h
    exact Or.inl h
  | some i =>
    cases hg : (flights ++ trains).get? i with
    | none =>
      simp only [mark_recommendations, hfa, hg] at h
      exact Or.inl h
    | some o' =>
      simp only [mark_recommendations, hfa, hg] at h
      rcases List.mem_or_eq_of_mem_set h with h1 | h1
      · exact Or.inl h1
      · exact Or.inr ⟨o', h1⟩

theorem countRec_mark_recommendations (flights trains : List Transportation)
    (priority : String) (h : ∀ o ∈ flights ++ trains, o.recommended = false) :
    countRecommended (mark_recommendations flights trains priority)
      = if flights ++ trains = [] then 0 else 1 := by
  cases hfa : firstArgmax ((flights ++ trains).map (fun o => calculate_score o priority)) with
  | none =>
    have hnil : (flights ++ trains).map (fun o => calculate_score o priority) = [] :=
      firstArgmax_eq_none hfa
    have hl : flights ++ trains = [] := by simpa using hnil
    obtain ⟨hf, ht⟩ := List.append_eq_nil.mp hl
    subst hf; subst ht
    simp [mark_recommendations, firstArgmax, countRecommended]
  | some i =>
    obtain ⟨m, hm, _⟩ := firstArgmax_spec hfa
    have hil : i < (flights ++ trains).length := by
      have h1 := List.get?_eq_some.mp hm
      simpa using h1.1
    obtain ⟨o, ho⟩ : ∃ o, (flights ++ trains).get? i = some o := by
      cases hg : (flights ++ trains).get? i with
      | none =>
        rw [List.get?_map, hg] at hm
        simp at hm
      | some o => exact ⟨o, rfl⟩
    have hne : flights ++ trains ≠ [] := by
      intro h0
      rw [h0] at hil
      simp at hil
    simp only [mark_recommendations, hfa, ho]
    rw [if_neg hne]
    exact countP_set_eq_one _ _ _ _ h hil (by simp [markT])

/-! ## Claim C1 -/

/-- C1, counterexample.  The claim says every run of the transportation
selector over a non-empty candidate list marks exactly one candidate
`recommended=true`; but `TravelAgent.process` passes only `flights + trains`
to `_mark_recommendations`, so a run whose candidates are all buses (a
bus-mode run) has a non-empty result with zero recommended candidates. -/
theorem C1_counterexample :
    process_marking [] [] [] [cBus] "balanced" ≠ []
    ∧ countRecommended (process_marking [] [] [] [cBus] "balanced") = 0 := by
  constructor
  · with_unfolding_all decide
  · with_unfolding_all decide

/-- C1, amended.  In a selector run over unmarked candidates: exactly one
candidate is marked `recommended=true` (with a recommendation reason set)
when the `flights + trains` sublist is non-empty; when it is empty — in
particular for bus-only or car-only runs — no candidate is marked; and at
most one candidate per run is ever marked. -/
theorem C1_selector_marking (flights trains cars buses : List Transportation)
    (priority : String)
    (h : ∀ o ∈ flights ++ trains ++ cars ++ buses, o.recommended = false) :
    (flights ++ trains ≠ [] →
      countRecommended (process_marking flights trains cars buses priority) = 1)
    ∧ (flights ++ trains = [] →
      countRecommended (process_marking flights trains cars buses priority) = 0)
    ∧ countRecommended (process_marking flights trains cars buses priority) ≤ 1
    ∧ ∀ o ∈ process_marking flights trains cars buses priority,
        o.recommended = true → o.recommendationReason ≠ none := by
  have hft : ∀ o ∈ flights ++ trains, o.recommended = false := by
    intro o ho
    refine h o ?_
    simp only [List.mem_append] at ho ⊢
    tauto
  have hcars : ∀ o ∈ cars, o.recommended = false := by
    intro o ho
    refine h o ?_
    simp only [List.mem_append]
    tauto
  have hbuses : ∀ o ∈ buses, o.recommended = false := by
    intro o ho
    refine h o ?_
    simp only [List.mem_append]
    tauto
  have hmark := countRec_mark_recommendations flights trains priority hft
  have hcz : countRecommended cars = 0 :=
    List.countP_eq_zero.mpr (fun a ha => by simp [hcars a ha])
  have hbz : countRecommended buses = 0 :=
    List.countP_eq_zero.mpr (fun a ha => by simp [hbuses a ha])
  have htotal : countRecommended (process_marking flights trains cars buses priority)
      = countRecommended (mark_recommendations flights trains priority) := by
    unfold process_marking countRecommended
    rw [List.countP_append, List.countP_append]
    unfold countRecommended at hcz hbz
    omega
  refine ⟨?_, ?_, ?_, ?_⟩
  · intro hne
    rw [htotal, hmark, if_neg hne]
  · intro hnil
    rw [htotal, hmark, if_pos hnil]
  · rw [htotal, hmark]
    by_cases hnil : flights ++ trains = [] <;> simp [hnil]
  · intro o ho hrec
    unfold process_marking at ho
    simp only [List.mem_append] at ho
    rcases ho with (ho | ho) | ho
    · rcases mem_mark_recommendations flights trains priority ho with h1 | ⟨o', h1⟩
      · exact absurd hrec (by simp [hft o h1])
      · rw [h1]
        simp [markT]
    · exact absurd hrec (by simp [hcars o ho])
    · exact absurd hrec (by simp [hbuses o ho])

/-- C1, witness: a flight-mode run with one flight and one (unscored) bus
marks exactly one candidate. -/
theorem C1_selector_marking_witness :
    countRecommended (process_marking [cFlightA] [] [] [cBus] "balanced") = 1 := by
  have h := C1_selector_marking [cFlightA] [] [] [cBus] "balanced" (by decide)
  exact h.1 (by with_unfolding_all decide)

/-! ## Claim C7 -/

/-- C7, counterexample.  A single candidate with price 0 (reachable: the
train parser defaults a price it cannot parse to 0.0 and does not filter) is
marked recommended under priority "cheapest", yet it is not a candidate with
price strictly greater than 0, so the marked candidate does not have "the
minimum price among all candidates whose price is strictly greater than 0". -/
theorem C7_counterexample :
    ∃ r ∈ mark_recommendations [cZeroPrice] [] "cheapest",
      r.recommended = true ∧ ¬ 0 < r.price := by
  with_unfolding_all decide

/-- C7, amended.  When at least one candidate has price strictly greater
than 0 (and candidates start unmarked), the candidate marked
`recommended=true` under priority "cheapest" has positive price and its
price is minimal among all candidates with positive price. -/
theorem C7_cheapest_min_price (flights trains : List Transportation)
    (h : ∀ o ∈ flights ++ trains, o.recommended = false)
    (hpos : ∃ p ∈ flights ++ trains, 0 < p.price) :
    ∀ r ∈ mark_recommendations flights trains "cheapest",
      r.recommended = true →
      0 < r.price ∧ ∀ o ∈ flights ++ trains, 0 < o.price → r.price ≤ o.price := by
  intro r hr hrec
  cases hfa : firstArgmax ((flights ++ trains).map (fun o => calculate_score o "cheapest")) with
  | none =>
    have hnil := firstArgmax_eq_none hfa
    have hl : flights ++ trains = [] := by simpa using hnil
    obtain ⟨p, hp, _⟩ := hpos
    rw [hl] at hp
    simp at hp
  | some i =>
    obtain ⟨m, hm, hmax⟩ := firstArgmax_spec hfa
    obtain ⟨o, ho, hom⟩ : ∃ o, (flights ++ trains).get? i = some o
        ∧ calculate_score o "cheapest" = m := by
      cases hg : (flights ++ trains).get? i with
      | none =>
        rw [List.get?_map, hg] at hm
        simp at hm
      | some o =>
        rw [List.get?_map, hg] at hm
        simp only [Option.map_some', Option.some.injEq] at hm
        exact ⟨o, rfl, hm⟩
    simp only [mark_recommendations, hfa, ho] at hr
    rcases List.mem_or_eq_of_mem_set hr with h1 | h1
    · exact absurd hrec (by simp [h r h1])
    · have hcs : ∀ t : Transportation,
          calculate_score t "cheapest" = if 0 < t.price then 1000 / t.price else 0 :=
        fun t => rfl
      have hscore : ∀ o' ∈ flights ++ trains,
          calculate_score o' "cheapest" ≤ calculate_score o "cheapest" := by
        intro o' ho'
        rw [hom]
        exact hmax _ (List.mem_map_of_mem _ ho')
      obtain ⟨p, hp, hppos⟩ := hpos
      have hpscore : 0 < calculate_score p "cheapest" := by
        rw [hcs p, if_pos hppos]
        positivity
      have hopos : 0 < o.price := by
        by_contra hno
        have h0 : calculate_score o "cheapest" = 0 := by rw [hcs o, if_neg hno]
        have hle := hscore p hp
        rw [h0] at hle
        exact absurd (lt_of_lt_of_le hpscore hle) (lt_irrefl 0)
      have hrprice : r.price = o.price := by rw [h1]; rfl
      constructor
      · rw [hrprice]
        exact hopos
      · intro o' ho' ho'pos
        have hsle := hscore o' ho'
        rw [hcs o', hcs o, if_pos ho'pos, if_pos hopos] at hsle
        rw [div_le_div_iff ho'pos hopos] at hsle
        rw [hrprice]
        exact le_of_mul_le_mul_left hsle (by norm_num)

/-- C7, witness: of two flights priced 200 and 150, the 150 one is marked and
is minimal among the positive-priced candidates. -/
theorem C7_cheapest_min_price_witness :
    0 < (markT "cheapest" cFlightB).price
    ∧ ∀ o ∈ [cFlightA] ++ [cFlightB], 0 < o.price →
        (markT "cheapest" cFlightB).price ≤ o.price := by
  have h := C7_cheapest_min_price [cFlightA] [cFlightB] (by decide)
    ⟨cFlightA, by decide, by norm_num [cFlightA]⟩
  exact h (markT "cheapest" cFlightB) (by with_unfolding_all decide) (by decide)

/-! ## Claim C4 -/

/-- C4, confirmed.  The wrapped generation-service call: when every attempt
fails with a message matching the rate-limit marker set, exactly 3 calls are
made in total and the third attempt's error is surfaced through the guidance
wrapper; when the first attempt fails with a non-matching message, exactly 1
call is made and the error propagates out of the retry controller with no
retry (the process wrapper then adds its text). -/
theorem C4_retry_policy {α : Type} (f : Nat → Except String α) :
    ((∀ n, 1 ≤ n → n ≤ 3 → ∃ e, f n = .error e ∧ matchesRateLimit e = true) →
      (callWithGuidance f).2 = 3
      ∧ ∃ e, f 3 = .error e ∧ (callWithGuidance f).1 = .error (processWrapMsg e))
    ∧ (∀ e, f 1 = .error e → matchesRateLimit e = false →
      run_with_retry f = (.error e, 1)
      ∧ callWithGuidance f = (.error (processWrapMsg e), 1)) := by
  constructor
  · intro h
    obtain ⟨e1, he1, hm1⟩ := h 1 (by norm_num) (by norm_num)
    obtain ⟨e2, he2, hm2⟩ := h 2 (by norm_num) (by norm_num)
    obtain ⟨e3, he3, hm3⟩ := h 3 (by norm_num) (by norm_num)
    have hr : run_with_retry f = (.error e3, 3) := by
      simp [run_with_retry, he1, hm1, he2, hm2, he3]
    refine ⟨?_, e3, he3, ?_⟩
    · simp [callWithGuidance, hr]
    · simp [callWithGuidance, hr]
  · intro e he hm
    have hr : run_with_retry f = (.error e, 1) := by
      simp [run_with_retry, he, hm]
    exact ⟨hr, by simp [callWithGuidance, hr]⟩

/-- C4, witness: an always-"429" call is attempted 3 times; a "boom" call is
attempted once and its error propagates unchanged from the controller. -/
theorem C4_retry_policy_witness :
    (callWithGuidance (fun _ => (.error "429" : Except String Nat))).2 = 3
    ∧ run_with_retry (fun _ => (.error "boom" : Except String Nat))
        = (.error "boom", 1) := by
  have h := C4_retry_policy (fun _ => (.error "429" : Except String Nat))
  have h2 := C4_retry_policy (fun _ => (.error "boom" : Except String Nat))
  refine ⟨(h.1 ?_).1, (h2.2 "boom" rfl (by decide)).1⟩
  intro n _ _
  exact ⟨"429", rfl, by decide⟩

/-! ## Claim C8 -/

/-- C8, confirmed.  `classify` is a pure function of the utterance and:
an utterance containing both a query keyword and a modify keyword is
classified `intent="query"`; `intent="chat"` arises only when neither a
query keyword nor a modify keyword fires; and an utterance matching no
intent keyword yields `intent="query"` at confidence 0.5 — never a
modification. -/
theorem C8_classifier_priority :
    (∀ p : String, anyKw (strLower p) query_keywords = true →
      anyKw (strLower p) modify_keywords = true → (classify p).intent = "query")
    ∧ (∀ p : String, (classify p).intent = "chat" →
      anyKw (strLower p) query_keywords = false
      ∧ anyKw (strLower p) modify_keywords = false)
    ∧ (∀ p : String, anyKw (strLower p) query_keywords = false →
      anyKw (strLower p) modify_keywords = false →
      anyKw (strLower p) chat_keywords = false →
      (classify p).intent = "query" ∧ (classify p).confidence = 1 / 2
      ∧ (classify p).intent ≠ "modify") := by
  refine ⟨?_, ?_, ?_⟩
  · intro p hq _
    simp [classify, hq]
  · intro p hchat
    by_cases hq : anyKw (strLower p) query_keywords = true
    · simp [classify, hq] at hchat
    · have hq' : anyKw (strLower p) query_keywords = false := by simpa using hq
      by_cases hm : anyKw (strLower p) modify_keywords = true
      · simp [classify, hq', hm] at hchat
      · have hm' : anyKw (strLower p) modify_keywords = false := by simpa using hm
        exact ⟨hq', hm'⟩
  · intro p hq hm hc
    refine ⟨?_, ?_, ?_⟩
    · simp [classify, hq, hm, hc]
    · simp [classify, hq, hm, hc]
    · simp [classify, hq, hm, hc]

/-- C8, witness: "what should i add" (query and modify keywords) is a query;
"zzz" (no keywords) is a query at confidence 0.5. -/
theorem C8_classifier_priority_witness :
    (classify "what should i add").intent = "query"
    ∧ (classify "zzz").intent = "query"
    ∧ (classify "zzz").confidence = 1 / 2 := by
  have h := C8_classifier_priority
  refine ⟨h.1 "what should i add" (by decide) (by decide), ?_, ?_⟩
  · exact (h.2.2 "zzz" (by decide) (by decide) (by decide)).1
  · exact (h.2.2 "zzz" (by decide) (by decide) (by decide)).2.1

/-! ## Claim C9 -/

theorem abs_roundHalfEven_sub_le (q : ℚ) :
    |((roundHalfEven q : ℤ) : ℚ) - q| ≤ 1 / 2 := by
  simp only [roundHalfEven]
  have h0 : ((⌊q⌋ : ℤ) : ℚ) ≤ q := Int.floor_le q
  have h1 : q < (⌊q⌋ : ℚ) + 1 := Int.lt_floor_add_one q
  by_cases hc1 : q - (⌊q⌋ : ℚ) < 1 / 2
  · rw [if_pos hc1, abs_le]
    constructor <;> linarith
  · rw [if_neg hc1]
    by_cases hc2 : 1 / 2 < q - (⌊q⌋ : ℚ)
    · rw [if_pos hc2, abs_le]
      push_cast
      constructor <;> linarith
    · rw [if_neg hc2]
      by_cases hp : ⌊q⌋ % 2 = 0
      · rw [if_pos hp, abs_le]
        constructor <;> linarith
      · rw [if_neg hp, abs_le]
        push_cast
        constructor <;> linarith

theorem abs_pyRound2_sub_le (q : ℚ) : |pyRound2 q - q| ≤ 1 / 200 := by
  unfold pyRound2
  have h := abs_roundHalfEven_sub_le (q * 100)
  have he : ((roundHalfEven (q * 100) : ℤ) : ℚ) / 100 - q
      = (((roundHalfEven (q * 100) : ℤ) : ℚ) - q * 100) / 100 := by ring
  rw [he, abs_div]
  have h100 : |(100 : ℚ)| = 100 := by norm_num
  rw [h100]
  have := (div_le_div_iff_of_pos_right (c := (100 : ℚ)) (by norm_num)).mpr h
  calc |((roundHalfEven (q * 100) : ℤ) : ℚ) - q * 100| / 100
      ≤ (1 / 2) / 100 := this
    _ = 1 / 200 := by norm_num

theorem pyRound2_sum_bound (a t m e : ℚ) :
    |pyRound2 a + pyRound2 t + pyRound2 e + pyRound2 m
      + pyRound2 ((a + t + m + e) * (12 / 100))
      - pyRound2 (a + t + m + e + (a + t + m + e) * (12 / 100))| ≤ 3 / 100 := by
  have h1 := abs_le.mp (abs_pyRound2_sub_le a)
  have h2 := abs_le.mp (abs_pyRound2_sub_le t)
  have h3 := abs_le.mp (abs_pyRound2_sub_le e)
  have h4 := abs_le.mp (abs_pyRound2_sub_le m)
  have h5 := abs_le.mp (abs_pyRound2_sub_le ((a + t + m + e) * (12 / 100)))
  have h6 := abs_le.mp (abs_pyRound2_sub_le (a + t + m + e + (a + t + m + e) * (12 / 100)))
  rw [abs_le]
  constructor <;> linarith

/-- C9, counterexample.  The budget stage rounds each component and the total
separately (`round(x, 2)`), so the stored components plus the buffer can miss
the stored total by a cent: accommodation 3.334 and restaurant average 1.54
give components summing to 8.21 against a total of 8.22. -/
theorem C9_counterexample :
    c9Budget.accommodation + c9Budget.transportation + c9Budget.experiences
      + c9Budget.meals + c9Budget.miscellaneous ≠ c9Budget.total := by
  with_unfolding_all decide

/-- C9, amended.  The budget identity holds exactly before per-field
rounding, and therefore the stored (individually rounded) components plus
the miscellaneous buffer sum to the stored total to within $0.03; the
planner's fallback budget, which does not round, satisfies the sum
identity exactly. -/
theorem C9_budget_sum :
    (∀ (req : TripRequestM) (stay : Option StayResults)
      (travel : Option TravelResults) (expR : Option ExperienceResults)
      (restR : Option RestaurantResults),
      |(budget_process req stay travel expR restR).accommodation
        + (budget_process req stay travel expR restR).transportation
        + (budget_process req stay travel expR restR).experiences
        + (budget_process req stay travel expR restR).meals
        + (budget_process req stay travel expR restR).miscellaneous
        - (budget_process req stay travel expR restR).total| ≤ 3 / 100)
    ∧ (∀ (acc : Option PyAccommodation) (rest : List PyRestaurant)
      (dur trav : ℕ),
      (calculate_budget_fallback acc rest dur trav).accommodation
        + (calculate_budget_fallback acc rest dur trav).transportation
        + (calculate_budget_fallback acc rest dur trav).experiences
        + (calculate_budget_fallback acc rest dur trav).meals
        + (calculate_budget_fallback acc rest dur trav).miscellaneous
        = (calculate_budget_fallback acc rest dur trav).total) := by
  constructor
  · intro req stay travel expR restR
    exact pyRound2_sum_bound
      (calculate_accommodation_cost stay req (pyOrNat req.duration_days 5))
      (calculate_transportation_cost travel (pyOrNatV req.travelers 1))
      (calculate_meals_cost restR (pyOrNat req.duration_days 5) (pyOrNatV req.travelers 1))
      (calculate_experiences_cost expR (pyOrNatV req.travelers 1))
  · intro acc rest dur trav
    simp only [calculate_budget_fallback]
    ring

/-! ## Claim C5 -/

set_option maxRecDepth 8000 in
/-- C5, code evaluation at the failing input.  The spec's contract says the
extraction routine never raises, but `StayAgent._parse_results` on a fenced
JSON list containing a non-dict record calls `data.get` on a string, raising
`AttributeError`, which no surrounding `except` clause catches. -/
theorem C5_extraction_raises :
    parse_results c5Input 1 = .error .attributeError := by
  with_unfolding_all rfl

/-! ## Claim C6 -/

set_option maxRecDepth 400000 in
/-- C6, counterexample.  Lodging extractor: a well-formed fenced block whose
container holds N = 0 valid records yields 1 record (the unconditional
one-record text fallback), not 0.  Flight extractor: a well-formed fenced
block whose container holds N = 1 valid flight record yields 2 records,
because the supplementary text scan runs even when the fenced JSON parsed
and appends a prose-extracted flight with a new price. -/
theorem C6_counterexample :
    extract_fenced_json c6EmptyInput = some "\x7b\"accommodations\": []\x7d"
    ∧ jsonParse "\x7b\"accommodations\": []\x7d" = some (.obj [("accommodations", .arr [])])
    ∧ (parse_results c6EmptyInput 1).map List.length = .ok 1
    ∧ extract_fenced_json_checked c6FlightInput = some c6FlightInner
    ∧ (jsonParse c6FlightInner).map flight_container = some [c6FlightItem]
    ∧ (create_flight_core "a" "b" 1 c6FlightKvs).map (fun f => f.price) = some 300
    ∧ (parse_flight_results c6FlightInput "a" "b" 1).length = 2 := by
  refine ⟨?_, ?_, ?_, ?_, ?_, ?_, ?_⟩
  · with_unfolding_all rfl
  · with_unfolding_all rfl
  · with_unfolding_all rfl
  · with_unfolding_all rfl
  · with_unfolding_all rfl
  · with_unfolding_all rfl
  · with_unfolding_all rfl

theorem exists_of_isOkSome {ε β : Type} {x : Except ε (Option β)}
    (h : isOkSome x = true) : ∃ a, x = .ok (some a) := by
  cases x with
  | error e => simp [isOkSome] at h
  | ok o =>
    cases o with
    | none => simp [isOkSome] at h
    | some a => exact ⟨a, rfl⟩

theorem collectAccs_all_valid (duration : ℚ) (items : List Json)
    (h : ∀ it ∈ items, ∃ a, create_accommodation_from_dict duration it = .ok (some a)) :
    ∃ l, collectAccs duration items = .ok l ∧ l.length = items.length := by
  induction items with
  | nil => exact ⟨[], rfl, rfl⟩
  | cons it rest ih =>
    obtain ⟨a, ha⟩ := h it (List.mem_cons_self _ _)
    obtain ⟨l, hl, hlen⟩ := ih (fun x hx => h x (List.mem_cons_of_mem _ hx))
    refine ⟨a :: l, ?_, by simp [hlen]⟩
    simp [collectAccs, ha, hl]

theorem exists_of_flightOkPos {x : Option Transportation}
    (h : flightOkPos x = true) : ∃ f, x = some f ∧ 0 < f.price := by
  cases x with
  | none => simp [flightOkPos] at h
  | some f => exact ⟨f, rfl, by simpa [flightOkPos] using h⟩

theorem collectFlights_length (origin destination : String) (travelers : ℕ)
    (items : List Json)
    (h : ∀ it ∈ items, ∃ kvs f, it = Json.obj kvs
      ∧ create_flight_core origin destination travelers kvs = some f ∧ 0 < f.price) :
    ∀ idx, (collectFlights origin destination travelers idx items).length
      = items.length := by
  induction items with
  | nil => intro idx; rfl
  | cons it rest ih =>
    intro idx
    obtain ⟨kvs, f, hit, hcf, hpos⟩ := h it (List.mem_cons_self _ _)
    subst hit
    simp only [collectFlights, hcf]
    rw [if_pos hpos]
    simp only [List.length_cons]
    rw [ih (fun x hx => h x (List.mem_cons_of_mem _ hx)) (idx + 1)]

/-- C6, amended.  Lodging extractor (`StayAgent._parse_results`): a fenced
block whose container holds N ≥ 1 valid records yields exactly N records,
and an empty container yields the single text-fallback record rather than 0
records.  Flight extractor (`FlightSearchAgent._parse_flight_results`): a
fenced block whose container holds N ≥ 1 valid flight records (N ≤ 5, the
considered prefix) yields exactly N records only under the further condition
that the text scan over the whole output extracts nothing; otherwise
text-extracted flights with new prices are appended up to the five-flight
cap (the counterexample exhibits N = 1 yielding 2). -/
theorem C6_fenced_extraction_count :
    (∀ (output s : String) (items : List Json) (duration : ℚ),
      extract_fenced_json output = some s →
      (jsonParse s = some (.arr items)
        ∨ ∃ kvs, jsonParse s = some (.obj kvs)
          ∧ jLookup kvs "accommodations" = some (.arr items)) →
      (∀ it ∈ items, ∃ a, create_accommodation_from_dict duration it = .ok (some a)) →
      items ≠ [] →
      ∃ l, parse_results output duration = .ok l ∧ l.length = items.length)
    ∧ (∀ (output s : String) (duration : ℚ),
      extract_fenced_json output = some s →
      (jsonParse s = some (.arr [])
        ∨ ∃ kvs, jsonParse s = some (.obj kvs)
          ∧ jLookup kvs "accommodations" = some (.arr [])) →
      parse_results output duration = .ok [extract_from_text output duration])
    ∧ (∀ (output origin destination s : String) (items : List Json)
        (travelers : ℕ),
      extract_fenced_json_checked output = some s →
      (jsonParse s = some (.arr items)
        ∨ ∃ kvs, jsonParse s = some (.obj kvs)
          ∧ jGetD kvs "flights" (jGetD kvs "results" (jGetD kvs "options" (.arr [])))
            = .arr items) →
      (∀ it ∈ items, ∃ kvs f, it = Json.obj kvs
        ∧ create_flight_core origin destination travelers kvs = some f ∧ 0 < f.price) →
      extract_flights_from_text output origin destination travelers = [] →
      items ≠ [] → items.length ≤ 5 →
      (parse_flight_results output origin destination travelers).length
        = items.length) := by
  refine ⟨?_, ?_, ?_⟩
  · intro output s items duration hf hj hv hne
    obtain ⟨l, hl, hlen⟩ := collectAccs_all_valid duration items hv
    have hlne : l.isEmpty = false := by
      cases l with
      | nil =>
        exact absurd (List.length_eq_zero.mp hlen.symm) hne
      | cons a as => rfl
    rcases hj with hj | ⟨kvs, hj, hlk⟩
    · refine ⟨l, ?_, hlen⟩
      simp only [parse_results, hf, hj, hl, hlne, Bool.false_eq_true, if_false]
    · refine ⟨l, ?_, hlen⟩
      simp only [parse_results, hf, hj, hlk, hl, hlne, Bool.false_eq_true, if_false]
  · intro output s duration hf hj
    rcases hj with hj | ⟨kvs, hj, hlk⟩
    · simp [parse_results, hf, hj, collectAccs]
    · simp [parse_results, hf, hj, hlk, collectAccs]
  · intro output origin destination s items travelers hf hj hv htext hne hlen5
    have hie : items.isEmpty = false := by
      cases items with
      | nil => exact absurd rfl hne
      | cons a as => rfl
    have hvv : ∀ it ∈ items.take 5, ∃ kvs f, it = Json.obj kvs
        ∧ create_flight_core origin destination travelers kvs = some f ∧ 0 < f.price :=
      fun it hit => hv it (List.take_subset 5 items hit)
    have hcl := collectFlights_length origin destination travelers (items.take 5) hvv 0
    have hclen : (items.take 5).length = items.length := by
      rw [List.length_take]
      omega
    have hdec : ∃ j, decode_flight_json output = some j ∧ pyTruthy j = true
        ∧ flight_container j = items := by
      rcases hj with hj | ⟨kvs, hj, hch⟩
      · refine ⟨Json.arr items, ?_, ?_, rfl⟩
        · simp only [decode_flight_json, hf, hj, notNull]
        · simp [pyTruthy, hie]
      · refine ⟨Json.obj kvs, ?_, ?_, ?_⟩
        · simp only [decode_flight_json, hf, hj, notNull]
        · cases kvs with
          | nil =>
            exfalso
            simp [jGetD, jLookup] at hch
            exact hne hch
          | cons p ps => simp [pyTruthy]
        · simp only [flight_container, hch]
    obtain ⟨j, hdj, htr, hfc⟩ := hdec
    have hlenc : (flights_from_json origin destination travelers
        (decode_flight_json output)).length = items.length := by
      rw [hdj]
      simp only [flights_from_json]
      rw [if_pos htr, hfc, hcl, hclen]
    have hjne : (flights_from_json origin destination travelers
        (decode_flight_json output)).isEmpty = false := by
      rcases hFL : flights_from_json origin destination travelers
          (decode_flight_json output) with _ | ⟨f, fs⟩
      · rw [hFL] at hlenc
        simp only [List.length_nil] at hlenc
        exact absurd (List.length_eq_zero.mp hlenc.symm) hne
      · rfl
    simp only [parse_flight_results, htext, flight_base, hjne, Bool.false_eq_true,
      if_false, flight_topup, addLoop]
    rw [ite_self, List.length_take, hlenc]
    omega

set_option maxRecDepth 400000 in
/-- C6, witness: the lodging extractor on a fenced block with two valid
records returns exactly two records, and on an empty container returns the
one fallback record; the flight extractor on a fenced block with two valid
flights and no text-extractable priced paragraph returns exactly two
records. -/
theorem C6_fenced_extraction_count_witness :
    (∃ l, parse_results c6TwoInput 3 = .ok l ∧ l.length = 2)
    ∧ parse_results c6EmptyInput 1 = .ok [extract_from_text c6EmptyInput 1]
    ∧ (parse_flight_results c6FlightTwoInput "a" "b" 1).length = 2 := by
  refine ⟨?_, ?_, ?_⟩
  · refine C6_fenced_extraction_count.1 c6TwoInput c6TwoInner [c6Item1, c6Item2] 3
      ?_ ?_ ?_ ?_
    · with_unfolding_all rfl
    · right
      refine ⟨[("accommodations", .arr [c6Item1, c6Item2])], ?_, rfl⟩
      with_unfolding_all rfl
    · intro it hit
      simp only [List.mem_cons, List.mem_singleton] at hit
      rcases hit with h1 | h1 | h1
      · subst h1
        exact exists_of_isOkSome (by with_unfolding_all rfl)
      · subst h1
        exact exists_of_isOkSome (by with_unfolding_all rfl)
      · simp at h1
    · simp
  · refine C6_fenced_extraction_count.2.1 c6EmptyInput
      "\x7b\"accommodations\": []\x7d" 1 ?_ ?_
    · with_unfolding_all rfl
    · right
      refine ⟨[("accommodations", .arr [])], ?_, rfl⟩
      with_unfolding_all rfl
  · refine C6_fenced_extraction_count.2.2 c6FlightTwoInput "a" "b"
      c6FlightTwoInner [c6FlightItem, c6FItemB] 1 ?_ ?_ ?_ ?_ ?_ ?_
    · with_unfolding_all rfl
    · right
      refine ⟨[("flights", .arr [c6FlightItem, c6FItemB])], ?_, rfl⟩
      with_unfolding_all rfl
    · intro it hit
      simp only [List.mem_cons, List.mem_singleton] at hit
      rcases hit with h1 | h1 | h1
      · subst h1
        obtain ⟨f, hcf, hp⟩ := exists_of_flightOkPos
          (show flightOkPos (create_flight_core "a" "b" 1 c6FlightKvs) = true by
            with_unfolding_all rfl)
        exact ⟨c6FlightKvs, f, by with_unfolding_all rfl, hcf, hp⟩
      · subst h1
        obtain ⟨f, hcf, hp⟩ := exists_of_flightOkPos
          (show flightOkPos (create_flight_core "a" "b" 1 c6FKvsB) = true by
            with_unfolding_all rfl)
        exact ⟨c6FKvsB, f, by with_unfolding_all rfl, hcf, hp⟩
      · simp at h1
    · with_unfolding_all rfl
    · simp
    · simp

/-! ## Claim C2 -/

/-- C2, counterexample.  When the transportation branch raises, the fan-out
loop does not convert the failure into an empty StageResult: `asyncio.gather`
returns the bare exception, the loop `continue`s, and the branch's state key
is left unset (`none`), not an empty transportation result. -/
theorem C2_counterexample :
    (parallel_agents_node (.ok cRest2) (.error "transportation branch failed")
      (.ok cExp2)).travel_results = none
    ∧ (parallel_agents_node (.ok cRest2) (.error "transportation branch failed")
      (.ok cExp2)).travel_results ≠ some ⟨[]⟩ := by
  exact ⟨rfl, by decide⟩

theorem padItinerary_length (startDate : ℤ) (duration : ℕ) (l : List DayItin) :
    (padItinerary startDate duration l).length = duration := by
  unfold padItinerary
  rw [List.length_take, List.length_append, List.length_map, List.length_range]
  omega

theorem parse_itinerary_length (output : String) (startDate : ℤ) (duration : ℕ)
    (l : List DayItin) (h : parse_itinerary output startDate duration = .ok l) :
    l.length = duration := by
  unfold parse_itinerary at h
  cases hb : parse_itinerary_base output startDate duration with
  | error e =>
    rw [hb] at h
    simp at h
  | ok l0 =>
    rw [hb] at h
    simp only [Except.ok.injEq] at h
    rw [← h]
    exact padItinerary_length startDate duration l0

/-- C2, amended.  A run whose transportation branch raises is not aborted:
the run succeeds exactly when the (independent) itinerary-parse step does;
the failed branch's result is left unset (treated as empty downstream), the
other branches' results are retained, and the returned TripPlan has an
empty transportation list and an itinerary of exactly `duration_days`
entries. -/
theorem C2_branch_failure_isolation (req : TripRequestM) (stay : StayResults)
    (restR : RestaurantResults) (expR : ExperienceResults) (e : String)
    (plannerOutput : String) (startDate : ℤ) (d : ℕ)
    (hd : req.duration_days = some d) (hd0 : d ≠ 0) :
    (∀ plan : TripPlanM,
      run_pipeline req stay (.ok restR) (.error e) (.ok expR) plannerOutput
        startDate = .ok plan →
      plan.transportation = [] ∧ plan.restaurants = restR.restaurants
      ∧ plan.accommodations = stay.accommodations
      ∧ plan.experiences = expR.experiences
      ∧ plan.itinerary.length = d)
    ∧ exceptIsOk (run_pipeline req stay (.ok restR) (.error e) (.ok expR)
        plannerOutput startDate)
      = exceptIsOk (parse_itinerary plannerOutput startDate d) := by
  have hdur : pyOrNat req.duration_days 5 = d := by
    rw [hd]
    simp [pyOrNat, hd0]
  constructor
  · intro plan h
    unfold run_pipeline at h
    simp only [parallel_agents_node, branchToItem, processGatherItem, applyParallel] at h
    unfold planner_process at h
    rw [hdur] at h
    cases hp : parse_itinerary plannerOutput startDate d with
    | error e' =>
      rw [hp] at h
      simp at h
    | ok itin =>
      rw [hp] at h
      simp only [Except.ok.injEq] at h
      have hlen := parse_itinerary_length plannerOutput startDate d itin hp
      rw [← h]
      exact ⟨rfl, rfl, rfl, rfl, hlen⟩
  · unfold run_pipeline
    simp only [parallel_agents_node, branchToItem, processGatherItem, applyParallel]
    unfold planner_process
    rw [hdur]
    cases hp : parse_itinerary plannerOutput startDate d with
    | error e' => rfl
    | ok itin => rfl

/-- C2, witness: a concrete run with a failing transportation branch,
non-garbage-free planner output and `duration_days = 4` returns a plan with
no transportation and exactly 4 itinerary entries. -/
theorem C2_branch_failure_isolation_witness :
    exceptCheck
      (fun plan => plan.transportation = [] ∧ plan.restaurants = cRest2.restaurants
        ∧ plan.itinerary.length = 4)
      (run_pipeline c2Req cStay2 (.ok cRest2) (.error "boom") (.ok cExp2)
        "garbage" 100) := by
  cases h : run_pipeline c2Req cStay2 (.ok cRest2) (.error "boom") (.ok cExp2)
      "garbage" 100 with
  | ok plan =>
    have hc := (C2_branch_failure_isolation c2Req cStay2 cRest2 cExp2 "boom"
      "garbage" 100 4 rfl (by decide)).1 plan h
    exact ⟨hc.1, hc.2.1, hc.2.2.2.2⟩
  | error e =>
    have hok : exceptIsOk (run_pipeline c2Req cStay2 (.ok cRest2) (.error "boom")
        (.ok cExp2) "garbage" 100) = true := by
      with_unfolding_all rfl
    rw [h] at hok
    simp [exceptIsOk] at hok

/-! ## Claim C3 -/

/-- C3, code evaluation at the failing input.  A modify-intent follow-up
("change my flight") whose transportation re-run returns no records leaves
the plan unchanged and returns the could-not-make-that-change message — but
the service still persists a new PlanVersion, because the no-change branch
returns `type="modification"` with the (truthy) original plan attached and
`ItineraryService.handle_follow_up` saves on exactly that condition: the
version history grows from `[1]` to `[1, 2]`. -/
theorem C3_persists_despite_empty_rerun :
    (service_handle_follow_up [c3V1] "change my flight" c3Plan c3Reruns c9Req 0
      "out" "ans" "owner").map
      (fun pr => (pr.1.map (fun v => v.version), pr.2.type, pr.2.message))
    = .ok ([1, 2], "modification", could_not_message) := by
  with_unfolding_all rfl

/-! ## Claim C10 -/

/-- C10, confirmed.  A modify-intent follow-up whose action is "remove", or
whose category is budget or general, re-runs no stage (the result does not
depend on any stage re-run outcome) and returns the original TripPlan
unchanged with the could-not-make-that-change message. -/
theorem C10_no_rerun_unchanged (prompt category action : String)
    (plan : TripPlanM) (reruns reruns' : StageReruns) (req : TripRequestM)
    (startDate : ℤ) (plannerOutput : String)
    (h : action = "remove" ∨ category = "budget" ∨ category = "general") :
    handle_modification prompt category action plan reruns req startDate plannerOutput
      = .ok { type := "modification", itinerary := some plan, answer := none,
              message := could_not_message }
    ∧ handle_modification prompt category action plan reruns req startDate plannerOutput
      = handle_modification prompt category action plan reruns' req startDate
          plannerOutput := by
  rcases h with h | h | h
  · subst h
    have hno : ¬("remove" = "add" ∨ "remove" = "change" ∨ "remove" = "find") := by
      decide
    constructor
    · simp [handle_modification, hno]
    · simp [handle_modification, hno]
  · subst h
    constructor
    · simp [handle_modification]
    · simp [handle_modification]
  · subst h
    constructor
    · simp [handle_modification]
    · simp [handle_modification]

/-- C10, witness: "remove" with category accommodation leaves the plan and
message as the unchanged-plan response. -/
theorem C10_no_rerun_unchanged_witness :
    handle_modification "remove my hotel" "accommodation" "remove" c3Plan
      c3Reruns c9Req 0 "out"
      = .ok { type := "modification", itinerary := some c3Plan, answer := none,
              message := could_not_message } :=
  (C10_no_rerun_unchanged "remove my hotel" "accommodation" "remove" c3Plan
    c3Reruns c3Reruns c9Req 0 "out" (Or.inl rfl)).1

end TripMind
